import Mathlib

/-!
Shallow embedding of the workflow-orchestration core of the repository:
`src/shared/models.py`, `src/shared/messaging.py` and
`src/orchestrator/workflow.py`, together with proofs about the embedded
functions.

Modelling conventions:
* Python dictionaries with string keys become association lists
  (`List (String × _)`); dictionary update/lookup follow first-match
  semantics, which agrees with Python dictionaries whenever keys are
  unique (all dictionaries built by the source keep unique keys).
* Arbitrary Python values (`Any`) become the inductive `PyVal`.
* Wall-clock timestamps (`datetime.now()`, event-loop time) are not
  modelled: `end_time` becomes the flag `end_time_stamped`, and queue
  timestamps are explicit `Nat` clock arguments.
* The float `confidence` produced by the NLP collaborator is carried as an
  opaque `Int` score: the orchestrator only passes it through and never
  computes with it.
* JSON serialization on the Redis wire is modelled as the identity
  embedding (`QueueMessage` values are stored structurally).
* `async` effects (queue publishes, event emissions, sleeps) are made
  observable as explicit trace events returned next to the new state.
-/

namespace SlackCore

/-- First-match lookup in an association list (Python `dict.get` /
`key in dict` on dictionaries with unique keys). -/
def lookupStr {α : Type} : List (String × α) → String → Option α
  | [], _ => Option.none
  | (k, v) :: rest, key => if k = key then some v else lookupStr rest key

/-- `OperationStatus` enum from `src/shared/models.py`. -/
inductive OperationStatus where
  | pending
  | processing
  | completed
  | failed
  | cancelled
  deriving DecidableEq, Repr

/-- The `.value` string of an `OperationStatus` member. -/
def OperationStatus.value : OperationStatus → String
  | .pending => "pending"
  | .processing => "processing"
  | .completed => "completed"
  | .failed => "failed"
  | .cancelled => "cancelled"

/-- `ProcessedRequest` from `src/shared/models.py` (the fields the
orchestrator reads; `raw_entities` and `processing_time` are never read by
the orchestrator and are omitted). -/
structure ProcessedRequest where
  original_text : String
  intent : String
  confidence : Int
  entities : List (String × String)
  deriving DecidableEq, Repr

/-- `ProcessedRequest.get_entity`. -/
def ProcessedRequest.get_entity (p : ProcessedRequest) (entity_type : String) :
    Option String :=
  lookupStr p.entities entity_type

/-- An arbitrary Python value (`Any`), as stored in step parameters, step
results and message payloads. `procReq` embeds the `processed.dict()`
payload round-tripped through `ProcessedRequest(**...)` by the source. -/
inductive PyVal where
  | str (s : String)
  | int (n : Int)
  | bool (b : Bool)
  | pynone
  | dict (fields : List (String × PyVal))
  | list (items : List PyVal)
  | procReq (p : ProcessedRequest)

/-- Python truthiness (`if value:`) for the values of `PyVal`. -/
def pyTruthy : PyVal → Bool
  | .str s => !(s == "")
  | .int n => !(n == 0)
  | .bool b => b
  | .pynone => false
  | .dict fields => !fields.isEmpty
  | .list items => !items.isEmpty
  | .procReq _ => true

/-- Python `str(...)` as used inside f-strings. Containers are rendered
with placeholder text; no property proved below depends on their exact
rendering. -/
def pyToStr : PyVal → String
  | .str s => s
  | .int n => toString n
  | .bool b => if b then "True" else "False"
  | .pynone => "None"
  | .dict _ => "<dict>"
  | .list _ => "<list>"
  | .procReq _ => "<ProcessedRequest>"

/-- Python `value.get(key, dflt)`: an `AttributeError` when the receiver is
not a dictionary. -/
def pyGet (v : PyVal) (key : String) (dflt : PyVal) : Except String PyVal :=
  match v with
  | .dict fields => Except.ok ((lookupStr fields key).getD dflt)
  | _ => Except.error "AttributeError: object has no attribute get"

/-- Python `value[key]`: `KeyError` when the key is absent, `TypeError`
when the receiver is not a dictionary. -/
def pyGetItem (v : PyVal) (key : String) : Except String PyVal :=
  match v with
  | .dict fields =>
    match lookupStr fields key with
    | some x => Except.ok x
    | Option.none => Except.error ("KeyError: " ++ key)
  | _ => Except.error "TypeError: object is not subscriptable"

/-- `Optional[str]` rendered into a stored `PyVal` (Python `None` for a
missing entity). -/
def optStr : Option String → PyVal
  | some s => PyVal.str s
  | Option.none => PyVal.pynone

/-- `GitHubOperation` from `src/shared/models.py`. Optional string fields
hold whatever value the orchestrator assigns, hence `Option PyVal`. -/
structure GitHubOperation where
  operation_type : String
  repository : Option PyVal := Option.none
  branch : Option PyVal := Option.none
  file_path : Option PyVal := Option.none
  content : Option PyVal := Option.none
  commit_message : Option PyVal := Option.none
  pr_number : Option Int := Option.none
  pr_title : Option PyVal := Option.none
  pr_body : Option PyVal := Option.none
  user_id : Option String := Option.none
  parameters : List (String × PyVal) := []

/-- `GitHubOperation.from_processed_request`. -/
def GitHubOperation.from_processed_request (processed : ProcessedRequest)
    (user_id : String) : GitHubOperation :=
  { operation_type := processed.intent
    repository := (processed.get_entity "repository").map PyVal.str
    branch := (processed.get_entity "branch").map PyVal.str
    file_path := (processed.get_entity "file").map PyVal.str
    user_id := some user_id
    parameters :=
      [("description", optStr (processed.get_entity "description")),
       ("language", optStr (processed.get_entity "language")),
       ("function", optStr (processed.get_entity "function"))] }

/-- `SlackRequest` from `src/shared/models.py` (the wall-clock `timestamp`
field is omitted). -/
structure SlackRequest where
  user_id : String
  channel_id : String
  command : String
  command_type : String := "github"
  response_url : Option String := Option.none
  trigger_id : Option String := Option.none

/-- `WorkflowStep` from `src/shared/models.py`. -/
structure WorkflowStep where
  step_id : String
  step_type : String
  parameters : List (String × PyVal) := []
  dependencies : List String := []
  timeout_seconds : Nat := 300
  retry_count : Nat := 0
  max_retries : Nat := 3

/-- `WorkflowExecution` from `src/shared/models.py`; `start_time` and
`end_time` are wall-clock values, abstracted to the `end_time_stamped`
flag. -/
structure WorkflowExecution where
  execution_id : String
  request_id : String
  user_id : String
  channel_id : String
  steps : List WorkflowStep
  current_step : Nat := 0
  status : OperationStatus := OperationStatus.pending
  results : List (String × PyVal) := []
  errors : List String := []
  end_time_stamped : Bool := false

/-- `WorkflowExecution.get_current_step`. -/
def WorkflowExecution.get_current_step (wf : WorkflowExecution) :
    Option WorkflowStep :=
  wf.steps[wf.current_step]?

/-- `WorkflowExecution.advance_step`. -/
def WorkflowExecution.advance_step (wf : WorkflowExecution) :
    WorkflowExecution :=
  { wf with current_step := wf.current_step + 1 }

/-- `WorkflowExecution.is_completed`: `current_step >= len(steps)`. -/
def WorkflowExecution.is_completed (wf : WorkflowExecution) : Bool :=
  wf.steps.length ≤ wf.current_step

/-! ### `src/shared/messaging.py`: message queue -/

/-- `QueueMessage`: the on-wire envelope `{data, priority, timestamp}`
built by `MessageQueue.publish`. The float event-loop timestamp is an
explicit `Nat` clock reading. -/
structure QueueMessage where
  data : PyVal
  priority : Int
  timestamp : Nat

/-- The Redis keyspace: each channel name holds a list whose head is the
`LPUSH` end and whose last element is the `BRPOP` end. -/
def QueueState := String → List QueueMessage

/-- Replace the list stored at one channel. -/
def updateChannel (st : QueueState) (channel : String)
    (l : List QueueMessage) : QueueState :=
  fun c => if c = channel then l else st c

/-- `MessageQueue.publish`: wrap the payload in a `QueueMessage` envelope,
serialize, and `LPUSH` it onto the channel (prepend). -/
def MessageQueue.publish (st : QueueState) (channel : String)
    (message : PyVal) (priority : Int) (now : Nat) : QueueState :=
  updateChannel st channel (⟨message, priority, now⟩ :: st channel)

/-- Redis `BRPOP` on one channel list: remove and return the element at
the tail end (`none` models the blocking wait on an empty list). -/
def brpop (l : List QueueMessage) : Option (QueueMessage × List QueueMessage) :=
  match l.getLast? with
  | Option.none => Option.none
  | some m => some (m, l.dropLast)

/-- `MessageQueue.consume` unrolled for `n` pops with no intervening
pushes: repeatedly `BRPOP` the channel, decode the envelope and yield its
`data` field. An empty channel blocks, so the unrolling stops there. -/
def MessageQueue.consumeN (st : QueueState) (channel : String) :
    Nat → List PyVal
  | 0 => []
  | n + 1 =>
    match brpop (st channel) with
    | Option.none => []
    | some (m, rest) =>
      m.data :: MessageQueue.consumeN (updateChannel st channel rest) channel n

/-! ### `src/shared/messaging.py`: event bus -/

/-- A registered event handler. The returned value is ignored by `emit`;
an `Except.error` models the handler raising. -/
def Handler := PyVal → Except String PyVal

/-- `EventBus`: the `event_handlers` dictionary, event type → handler
list. -/
structure EventBus where
  event_handlers : List (String × List Handler) := []

/-- Append a handler to the list stored under `event_type`, creating the
entry when absent (`EventBus.register_handler`). -/
def appendHandler : List (String × List Handler) → String → Handler →
    List (String × List Handler)
  | [], event_type, h => [(event_type, [h])]
  | (k, hs) :: rest, event_type, h =>
    if k = event_type then (k, hs ++ [h]) :: rest
    else (k, hs) :: appendHandler rest event_type h

/-- `EventBus.register_handler`. -/
def EventBus.register_handler (bus : EventBus) (event_type : String)
    (h : Handler) : EventBus :=
  { bus with event_handlers := appendHandler bus.event_handlers event_type h }

/-- The handler list `emit` iterates over for an event type (empty when
the type was never registered). -/
def EventBus.getHandlers (bus : EventBus) (event_type : String) :
    List Handler :=
  (lookupStr bus.event_handlers event_type).getD []

/-- The observable outcome of invoking one handler inside `emit`'s
`try/except`: `none` when it returned, `some e` when it raised `e` (the
error is caught and logged). -/
def handlerOutcome (h : Handler) (data : PyVal) : Option String :=
  match h data with
  | Except.ok _ => Option.none
  | Except.error e => some e

/-- The handler loop inside `EventBus.emit`: every handler is invoked in
list order; a raising handler is caught and never stops the loop. -/
def runHandlers : List Handler → PyVal → List (Option String)
  | [], _ => []
  | h :: rest, data => handlerOutcome h data :: runHandlers rest data

/-- `EventBus.emit`: publish `{event_type, data}` onto the
`events:<event_type>` queue channel, then invoke every locally registered
handler in registration order. Returns the new queue state and the
per-handler outcomes; the call itself always returns. -/
def EventBus.emit (bus : EventBus) (st : QueueState) (event_type : String)
    (data : PyVal) (now : Nat) : QueueState × List (Option String) :=
  (MessageQueue.publish st ("events:" ++ event_type)
      (PyVal.dict [("event_type", PyVal.str event_type), ("data", data)]) 0 now,
   runHandlers (bus.getHandlers event_type) data)

/-! ### `src/orchestrator/workflow.py`: observable effects -/

/-- An effect performed inside a step executor: the executors only ever
publish to the message queue (`send_status_update`,
`send_final_notification`). -/
inductive EffEvent where
  | queuePublish (channel : String) (payload : PyVal)

/-- An observable event of one workflow execution, in chronological
order. `execCall` records each invocation of `execute_step` (with the
step index and id), `emitEvent` each `event_bus.emit` performed by the
engine itself, `sleep` each backoff `asyncio.sleep`, and `eff` each queue
publish performed inside an executor. -/
inductive TraceEvent where
  | execCall (index : Nat) (step_id : String)
  | eff (e : EffEvent)
  | sleep (seconds : Nat)
  | emitEvent (event_type : String) (payload : PyVal)

/-- A step executor: receives the workflow and the step, returns the
queue publishes it performed (in order) and either a result payload or
the raised error (`WorkflowOrchestrator.execute_step`'s shape). -/
def StepExec := WorkflowExecution → WorkflowStep → List EffEvent × Except String PyVal

/-- The two external collaborators consumed as black boxes:
`process_natural_language` (nlp_engine) and `execute_github_operation`
(github_engine). -/
structure Collaborators where
  process_natural_language : PyVal → Except String ProcessedRequest
  execute_github_operation : GitHubOperation → Except String PyVal

/-- `send_status_update`: publish a status payload to the
`operation_updates` channel (the wall-clock `timestamp` field is
omitted). -/
def statusUpdateEvent (channel_id user_id status : String) : EffEvent :=
  EffEvent.queuePublish "operation_updates"
    (PyVal.dict [("channel_id", PyVal.str channel_id),
                 ("user_id", PyVal.str user_id),
                 ("status", PyVal.str status)])

/-- The `entities` mapping of a `ProcessedRequest` stored as a Python
dictionary of strings. -/
def entitiesToPy (entities : List (String × String)) : PyVal :=
  PyVal.dict (entities.map (fun kv => (kv.1, PyVal.str kv.2)))

/-- `step.parameters[key]`: `KeyError` when absent. -/
def paramGet (step : WorkflowStep) (key : String) : Except String PyVal :=
  match lookupStr step.parameters key with
  | some v => Except.ok v
  | Option.none => Except.error ("KeyError: " ++ key)

/-- `WorkflowOrchestrator.execute_nlp_step`. -/
def execute_nlp_step (collab : Collaborators) (wf : WorkflowExecution)
    (step : WorkflowStep) : List EffEvent × Except String PyVal :=
  match paramGet step "text" with
  | Except.error e => ([], Except.error e)
  | Except.ok text =>
    let effs := [statusUpdateEvent wf.channel_id wf.user_id
      "🧠 Analyzing your request..."]
    match collab.process_natural_language text with
    | Except.error e => (effs, Except.error e)
    | Except.ok processed =>
      (effs, Except.ok (PyVal.dict
        [("processed_request", PyVal.procReq processed),
         ("intent", PyVal.str processed.intent),
         ("entities", entitiesToPy processed.entities),
         ("confidence", PyVal.int processed.confidence)]))

/-- `WorkflowOrchestrator.execute_validation_step`. -/
def execute_validation_step (wf : WorkflowExecution) (step : WorkflowStep) :
    List EffEvent × Except String PyVal :=
  match paramGet step "user_id" with
  | Except.error e => ([], Except.error e)
  | Except.ok uid =>
    let nlp_result := (lookupStr wf.results "nlp_processing").getD (PyVal.dict [])
    match pyGet nlp_result "entities" (PyVal.dict []) with
    | Except.error e => ([], Except.error e)
    | Except.ok entities =>
      match pyGet entities "repository" PyVal.pynone with
      | Except.error e => ([], Except.error e)
      | Except.ok repo0 =>
        let repository :=
          if pyTruthy repo0 then repo0
          else PyVal.str ("user-" ++ pyToStr uid ++ "/default-repo")
        ([], Except.ok (PyVal.dict
          [("validated", PyVal.bool true),
           ("repository", repository),
           ("user_permissions", PyVal.list [PyVal.str "read", PyVal.str "write"]),
           ("rate_limit_ok", PyVal.bool true)]))

/-- `WorkflowOrchestrator.execute_github_step`. -/
def execute_github_step (collab : Collaborators) (wf : WorkflowExecution)
    (_step : WorkflowStep) : List EffEvent × Except String PyVal :=
  let nlp_result := (lookupStr wf.results "nlp_processing").getD (PyVal.dict [])
  let validation_result :=
    (lookupStr wf.results "validate_permissions").getD (PyVal.dict [])
  let effs := [statusUpdateEvent wf.channel_id wf.user_id
    "⚙️ Executing GitHub operation..."]
  match pyGetItem nlp_result "processed_request" with
  | Except.error e => (effs, Except.error e)
  | Except.ok prVal =>
    match prVal with
    | PyVal.procReq processed =>
      let operation := GitHubOperation.from_processed_request processed wf.user_id
      match (if pyTruthy validation_result then
              pyGet validation_result "repository" PyVal.pynone
             else Except.ok PyVal.pynone) with
      | Except.error e => (effs, Except.error e)
      | Except.ok repoVal =>
        let operation :=
          if pyTruthy repoVal then { operation with repository := some repoVal }
          else operation
        match collab.execute_github_operation operation with
        | Except.error e => (effs, Except.error e)
        | Except.ok result => (effs, Except.ok result)
    | _ => (effs, Except.error "TypeError: ProcessedRequest expects a mapping")

/-- `WorkflowOrchestrator.execute_code_generation_step`. -/
def execute_code_generation_step (wf : WorkflowExecution)
    (_step : WorkflowStep) : List EffEvent × Except String PyVal :=
  ([statusUpdateEvent wf.channel_id wf.user_id "💻 Generating code..."],
   Except.ok (PyVal.dict
     [("generated_code", PyVal.str "# Generated code placeholder"),
      ("language", PyVal.str "python"),
      ("file_suggestion", PyVal.str "generated_code.py")]))

/-- `WorkflowOrchestrator.execute_pr_analysis_step`. -/
def execute_pr_analysis_step (_wf : WorkflowExecution)
    (_step : WorkflowStep) : List EffEvent × Except String PyVal :=
  ([], Except.ok (PyVal.dict
    [("pr_action", PyVal.str "create"),
     ("target_branch", PyVal.str "main"),
     ("source_branch", PyVal.str "feature-branch")]))

/-- `WorkflowOrchestrator.execute_notification_step`: build the summary
message from the accumulated results, publish it with
`send_final_notification` to the `final_notifications` channel, and
report `{"notification_sent": True}`. -/
def execute_notification_step (wf : WorkflowExecution) (step : WorkflowStep) :
    List EffEvent × Except String PyVal :=
  match paramGet step "channel_id" with
  | Except.error e => ([], Except.error e)
  | Except.ok channelVal =>
    match paramGet step "user_id" with
    | Except.error e => ([], Except.error e)
    | Except.ok userVal =>
      match lookupStr wf.results "execute_github_operation" with
      | some github_result =>
        match github_result with
        | PyVal.dict fields =>
          let message :=
            if pyTruthy ((lookupStr fields "success").getD PyVal.pynone) then
              let base := "✅ GitHub operation completed successfully!"
              let prUrl := (lookupStr fields "pr_url").getD PyVal.pynone
              if pyTruthy prUrl then
                base ++ "\n🔗 Pull Request: " ++ pyToStr prUrl
              else base
            else
              "❌ GitHub operation failed: " ++
                pyToStr ((lookupStr fields "error").getD (PyVal.str "Unknown error"))
          ([EffEvent.queuePublish "final_notifications"
              (PyVal.dict [("channel_id", channelVal), ("user_id", userVal),
                           ("message", PyVal.str message),
                           ("results", PyVal.dict wf.results)])],
           Except.ok (PyVal.dict [("notification_sent", PyVal.bool true)]))
        | _ => ([], Except.error "AttributeError: object has no attribute get")
      | Option.none =>
        let message := "✅ Request processed successfully!"
        ([EffEvent.queuePublish "final_notifications"
            (PyVal.dict [("channel_id", channelVal), ("user_id", userVal),
                         ("message", PyVal.str message),
                         ("results", PyVal.dict wf.results)])],
         Except.ok (PyVal.dict [("notification_sent", PyVal.bool true)]))

/-- `WorkflowOrchestrator.execute_step`: dispatch on `step_type`; an
unknown tag raises `ValueError("Unknown step type: ...")`. -/
def execute_step (collab : Collaborators) : StepExec := fun wf step =>
  if step.step_type = "nlp" then execute_nlp_step collab wf step
  else if step.step_type = "validation" then execute_validation_step wf step
  else if step.step_type = "github" then execute_github_step collab wf step
  else if step.step_type = "code_generation" then
    execute_code_generation_step wf step
  else if step.step_type = "pr_analysis" then execute_pr_analysis_step wf step
  else if step.step_type = "notification" then execute_notification_step wf step
  else ([], Except.error ("Unknown step type: " ++ step.step_type))

/-! ### `src/orchestrator/workflow.py`: the execution loop -/

/-- `WorkflowOrchestrator.are_dependencies_satisfied`: every dependency
id must already be a key of `workflow.results`. -/
def are_dependencies_satisfied (wf : WorkflowExecution)
    (step : WorkflowStep) : Bool :=
  step.dependencies.all (fun dep => (lookupStr wf.results dep).isSome)

/-- Payload of the `workflow_step_completed` event. -/
def stepCompletedPayload (wf : WorkflowExecution) (step : WorkflowStep)
    (result : PyVal) : PyVal :=
  PyVal.dict [("workflow_id", PyVal.str wf.execution_id),
              ("step_id", PyVal.str step.step_id),
              ("result", result)]

/-- Payload of the `workflow_step_failed` event. -/
def stepFailedPayload (wf : WorkflowExecution) (step : WorkflowStep)
    (e : String) : PyVal :=
  PyVal.dict [("workflow_id", PyVal.str wf.execution_id),
              ("step_id", PyVal.str step.step_id),
              ("error", PyVal.str e)]

/-- Payload of the `workflow_completed` event. -/
def workflowCompletedPayload (wf : WorkflowExecution) : PyVal :=
  PyVal.dict [("workflow_id", PyVal.str wf.execution_id),
              ("results", PyVal.dict wf.results)]

/-- Per-step termination budget of the `while` loop: a step can be
attempted at most `max_retries - retry_count` further times, plus one
terminal attempt. -/
def stepBudget (s : WorkflowStep) : Nat :=
  s.max_retries - s.retry_count + 1

/-- Total loop budget from the cursor position: an upper bound on the
remaining number of loop iterations. -/
def remBudget (steps : List WorkflowStep) (c : Nat) : Nat :=
  ((steps.drop c).map stepBudget).sum

/-- The loop budget of a workflow state. -/
def remainingBudget (wf : WorkflowExecution) : Nat :=
  remBudget wf.steps wf.current_step

/-- How many times the loop invokes the executor for a step on which every
attempt fails: `max_retries - retry_count` when retries remain, otherwise a
single terminal attempt. -/
def attemptsOf (s : WorkflowStep) : Nat :=
  if s.retry_count < s.max_retries then s.max_retries - s.retry_count else 1

/-- The step the cursor points at (meaningful only while the cursor is in
range, which every use below guarantees). -/
def stepAt (wf : WorkflowExecution) : WorkflowStep :=
  (wf.steps[wf.current_step]?).getD { step_id := "", step_type := "" }

/-- The state update of the loop's success branch: record the result under
the step id and advance the cursor. -/
def advanceOk (wf : WorkflowExecution) (result : PyVal) : WorkflowExecution :=
  { wf with
      results := wf.results ++ [((stepAt wf).step_id, result)]
      current_step := wf.current_step + 1 }

/-- The state update of a failed attempt: `step.retry_count += 1` in place. -/
def bumpRetry (wf : WorkflowExecution) : WorkflowExecution :=
  { wf with
      steps := wf.steps.set wf.current_step
        { stepAt wf with retry_count := (stepAt wf).retry_count + 1 } }

/-- The state update when retries are exhausted: the bumped retry count,
the appended error and the failed status. -/
def terminalFail (wf : WorkflowExecution) (e : String) : WorkflowExecution :=
  { bumpRetry wf with
      errors := wf.errors ++ ["Step " ++ (stepAt wf).step_id ++ " failed: " ++ e]
      status := OperationStatus.failed }

/-- The state update of the dependency-check failure branch. -/
def depFail (wf : WorkflowExecution) : WorkflowExecution :=
  { wf with
      errors := wf.errors ++
        ["Dependencies not satisfied for step " ++ (stepAt wf).step_id]
      status := OperationStatus.failed }

/-- The `while not workflow.is_completed()` loop of
`WorkflowOrchestrator.execute_workflow`, written with an explicit fuel
counter for structural recursion. `remainingBudget` strictly decreases at
every iteration, so any fuel above the initial budget reproduces the
source loop exactly (`execute_workflow` below supplies it); the fuel can
never reach `0` there. Returns the final workflow state together with the
chronological event trace. -/
def execLoopFuel (ex : StepExec) :
    Nat → WorkflowExecution → WorkflowExecution × List TraceEvent
  | 0, wf => (wf, [])
  | fuel + 1, wf =>
    if h : wf.current_step < wf.steps.length then
      let step := wf.steps[wf.current_step]
      if are_dependencies_satisfied wf step then
        match ex wf step with
        | (effs, Except.ok result) =>
          let wf' := { wf with
            results := wf.results ++ [(step.step_id, result)]
            current_step := wf.current_step + 1 }
          let rest := execLoopFuel ex fuel wf'
          (rest.1,
           TraceEvent.execCall wf.current_step step.step_id ::
             (effs.map TraceEvent.eff ++
              (TraceEvent.emitEvent "workflow_step_completed"
                 (stepCompletedPayload wf step result) :: rest.2)))
        | (effs, Except.error e) =>
          let step' := { step with retry_count := step.retry_count + 1 }
          let wf' := { wf with steps := wf.steps.set wf.current_step step' }
          if step'.retry_count < step'.max_retries then
            let rest := execLoopFuel ex fuel wf'
            (rest.1,
             TraceEvent.execCall wf.current_step step.step_id ::
               (effs.map TraceEvent.eff ++
                (TraceEvent.sleep (2 ^ step'.retry_count) :: rest.2)))
          else
            ({ wf' with
                errors := wf'.errors ++
                  ["Step " ++ step.step_id ++ " failed: " ++ e]
                status := OperationStatus.failed },
             TraceEvent.execCall wf.current_step step.step_id ::
               (effs.map TraceEvent.eff ++
                [TraceEvent.emitEvent "workflow_step_failed"
                   (stepFailedPayload wf step e)]))
      else
        ({ wf with
            errors := wf.errors ++
              ["Dependencies not satisfied for step " ++ step.step_id]
            status := OperationStatus.failed },
         [])
    else (wf, [])

/-- The epilogue of `WorkflowOrchestrator.execute_workflow`: when the loop
exited with all steps done and the status not failed, mark the workflow
completed, stamp `end_time` and emit `workflow_completed`. -/
def execWorkflowPost (out : WorkflowExecution × List TraceEvent) :
    WorkflowExecution × List TraceEvent :=
  if out.1.is_completed ∧ out.1.status ≠ OperationStatus.failed then
    ({ out.1 with status := OperationStatus.completed, end_time_stamped := true },
     out.2 ++ [TraceEvent.emitEvent "workflow_completed"
       (workflowCompletedPayload out.1)])
  else out

/-- `WorkflowOrchestrator.execute_workflow` for one workflow (the
active-set cleanup it also performs is composed in `handle_request`
below). -/
def execute_workflow (ex : StepExec) (wf : WorkflowExecution) :
    WorkflowExecution × List TraceEvent :=
  execWorkflowPost (execLoopFuel ex (remainingBudget wf + 1) wf)

/-! ### `src/orchestrator/workflow.py`: step building and request handling -/

/-- `WorkflowOrchestrator.create_workflow_steps`. -/
def create_workflow_steps (request : SlackRequest) (workflow_type : String) :
    List WorkflowStep :=
  let base : List WorkflowStep :=
    [{ step_id := "nlp_processing"
       step_type := "nlp"
       parameters := [("text", PyVal.str request.command),
                      ("user_id", PyVal.str request.user_id)] }]
  if workflow_type = "github" then
    base ++
      [{ step_id := "validate_permissions"
         step_type := "validation"
         parameters := [("user_id", PyVal.str request.user_id)]
         dependencies := ["nlp_processing"] },
       { step_id := "execute_github_operation"
         step_type := "github"
         parameters := []
         dependencies := ["validate_permissions"] },
       { step_id := "send_result_notification"
         step_type := "notification"
         parameters := [("channel_id", PyVal.str request.channel_id),
                        ("user_id", PyVal.str request.user_id)]
         dependencies := ["execute_github_operation"] }]
  else if workflow_type = "code" then
    base ++
      [{ step_id := "generate_code"
         step_type := "code_generation"
         parameters := []
         dependencies := ["nlp_processing"] },
       { step_id := "create_file_or_pr"
         step_type := "github"
         parameters := [("auto_create_pr", PyVal.bool true)]
         dependencies := ["generate_code"] },
       { step_id := "send_code_notification"
         step_type := "notification"
         parameters := [("channel_id", PyVal.str request.channel_id),
                        ("user_id", PyVal.str request.user_id),
                        ("include_code", PyVal.bool true)]
         dependencies := ["create_file_or_pr"] }]
  else if workflow_type = "pr" then
    base ++
      [{ step_id := "analyze_pr_request"
         step_type := "pr_analysis"
         parameters := []
         dependencies := ["nlp_processing"] },
       { step_id := "execute_pr_operation"
         step_type := "github"
         parameters := [("operation_focus", PyVal.str "pull_request")]
         dependencies := ["analyze_pr_request"] },
       { step_id := "send_pr_notification"
         step_type := "notification"
         parameters := [("channel_id", PyVal.str request.channel_id),
                        ("user_id", PyVal.str request.user_id),
                        ("notification_type", PyVal.str "pr_result")]
         dependencies := ["execute_pr_operation"] }]
  else base

/-- The `active_workflows` dictionary, execution id → workflow. -/
abbrev ActiveMap := List (String × WorkflowExecution)

/-- The `WorkflowExecution` constructed by
`WorkflowOrchestrator.handle_request` (status starts at `PROCESSING`; the
two uuid4 values are explicit arguments). -/
def newWorkflow (request : SlackRequest)
    (workflow_type execution_id request_id : String) : WorkflowExecution :=
  { execution_id := execution_id
    request_id := request_id
    user_id := request.user_id
    channel_id := request.channel_id
    steps := create_workflow_steps request workflow_type
    status := OperationStatus.processing }

/-- Result of `handle_request`: the active set after the run, the final
workflow state, and the event trace. -/
structure HandleResult where
  active : ActiveMap
  final : WorkflowExecution
  trace : List TraceEvent

/-- `WorkflowOrchestrator.handle_request`: build the steps, store the
workflow in the active set, drive it to completion with
`execute_workflow`, which on exit deletes the execution id from the
active set. -/
def handle_request (collab : Collaborators) (active : ActiveMap)
    (request : SlackRequest) (workflow_type execution_id request_id : String) :
    HandleResult :=
  let wf := newWorkflow request workflow_type execution_id request_id
  let active1 : ActiveMap := active ++ [(execution_id, wf)]
  let out := execute_workflow (execute_step collab) wf
  let active2 : ActiveMap :=
    active1.filter (fun kv => !(kv.1 == execution_id))
  ⟨active2, out.1, out.2⟩

/-- The status summary returned by
`WorkflowOrchestrator.get_workflow_status` for an active execution. -/
structure StatusView where
  execution_id : String
  status : String
  current_step : Nat
  total_steps : Nat
  results : List (String × PyVal)
  errors : List String

/-- `WorkflowOrchestrator.get_workflow_status`: `none` when the execution
id is not in the active set. -/
def get_workflow_status (active : ActiveMap) (execution_id : String) :
    Option StatusView :=
  (lookupStr active execution_id).map (fun wf =>
    { execution_id := execution_id
      status := wf.status.value
      current_step := wf.current_step
      total_steps := wf.steps.length
      results := wf.results
      errors := wf.errors })

/-! ### Trace observations -/

/-- The step indices at which `execute_step` was invoked, in order. -/
def execIndices (tr : List TraceEvent) : List Nat :=
  tr.filterMap (fun ev => match ev with
    | TraceEvent.execCall i _ => some i
    | _ => Option.none)

/-- How many times `execute_step` was invoked in a trace. -/
def execCallCount (tr : List TraceEvent) : Nat :=
  (execIndices tr).length

/-- The backoff sleep durations of a trace, in seconds, in order. -/
def sleepDurations (tr : List TraceEvent) : List Nat :=
  tr.filterMap (fun ev => match ev with
    | TraceEvent.sleep s => some s
    | _ => Option.none)

/-- How many times the engine emitted a given event type. -/
def countEmits (event_type : String) (tr : List TraceEvent) : Nat :=
  tr.countP (fun ev => match ev with
    | TraceEvent.emitEvent t _ => t == event_type
    | _ => false)

/-- How many messages were published to a given queue channel by the
executors. -/
def countChannelPublishes (channel : String) (tr : List TraceEvent) : Nat :=
  tr.countP (fun ev => match ev with
    | TraceEvent.eff (EffEvent.queuePublish c _) => c == channel
    | _ => false)

/-- The trace restricted to executor invocations and sleeps (payload-free
events), used to state the interleaving of attempts and backoff. -/
def coreEvents (tr : List TraceEvent) : List TraceEvent :=
  tr.filter (fun ev => match ev with
    | TraceEvent.execCall _ _ => true
    | TraceEvent.sleep _ => true
    | _ => false)

/-- The keys of the results mapping. -/
def resultKeys (wf : WorkflowExecution) : List String :=
  wf.results.map Prod.fst

/-- The step ids, in list order. -/
def stepIds (wf : WorkflowExecution) : List String :=
  wf.steps.map WorkflowStep.step_id

/-- The step type tags, in list order. -/
def stepTypes (wf : WorkflowExecution) : List String :=
  wf.steps.map WorkflowStep.step_type

/-- Whether a trace event is an engine emission of the given event type. -/
def evIsEmitOf (event_type : String) : TraceEvent → Bool :=
  fun ev => match ev with
    | TraceEvent.emitEvent t _ => t == event_type
    | _ => false

/-- Whether the first character list is a prefix-wise match at the start
of the second. -/
def beginsWith : List Char → List Char → Bool
  | [], _ => true
  | _ :: _, [] => false
  | c :: cs, d :: ds => c == d && beginsWith cs ds

/-- Whether the needle occurs as a contiguous run inside the haystack. -/
def occursIn (needle : List Char) : List Char → Bool
  | [] => beginsWith needle []
  | d :: ds => beginsWith needle (d :: ds) || occursIn needle ds

/-- Whether a message names something: the name occurs as a substring of
the message. -/
def mentions (msg name : String) : Bool :=
  occursIn name.toList msg.toList

/-! ### Concrete fixtures used by witnesses and counterexamples -/

/-- Collaborators that always succeed (NLP extracts a repository and a
branch; the GitHub engine reports success). -/
def collabOk : Collaborators :=
  { process_natural_language := fun _ => Except.ok
      { original_text := "create branch auth-fix in demo/repo"
        intent := "create_branch"
        confidence := 9
        entities := [("repository", "demo/repo"), ("branch", "auth-fix")] }
    execute_github_operation := fun _ =>
      Except.ok (PyVal.dict [("success", PyVal.bool true)]) }

/-- Collaborators whose NLP call always raises. -/
def collabNlpDown : Collaborators :=
  { process_natural_language := fun _ => Except.error "nlp unavailable"
    execute_github_operation := fun _ =>
      Except.ok (PyVal.dict [("success", PyVal.bool true)]) }

/-- A concrete inbound request. -/
def reqA : SlackRequest :=
  { user_id := "U1", channel_id := "C1",
    command := "create branch auth-fix in demo/repo" }

/-- An executor that fails on every attempt with a fixed error and no
effects. -/
def alwaysFailExec : StepExec := fun _ _ => ([], Except.error "boom")

/-- A single-step workflow whose step has an unsatisfiable dependency:
step `alpha` depends on `omega`, which is never in `results`. -/
def wfDepMissing : WorkflowExecution :=
  { execution_id := "e-dep", request_id := "r-dep", user_id := "U1",
    channel_id := "C1"
    steps := [{ step_id := "alpha", step_type := "validation",
                parameters := [("user_id", PyVal.str "U1")],
                dependencies := ["omega"] }]
    status := OperationStatus.processing }

/-- A single-step workflow with a fresh, dependency-free step
(`max_retries` at its default 3). -/
def wfOneStep : WorkflowExecution :=
  { execution_id := "e-one", request_id := "r-one", user_id := "U1",
    channel_id := "C1"
    steps := [{ step_id := "solo", step_type := "github" }]
    status := OperationStatus.processing }

/-- A single-step workflow whose step allows four attempts, so that three
retries (with backoff 2 s, 4 s, 8 s) happen before the terminal failure. -/
def wfFourTries : WorkflowExecution :=
  { execution_id := "e-four", request_id := "r-four", user_id := "U1",
    channel_id := "C1"
    steps := [{ step_id := "solo4", step_type := "github", max_retries := 4 }]
    status := OperationStatus.processing }

/-- A single-step workflow whose step carries an unknown step type tag. -/
def wfBogusType : WorkflowExecution :=
  { execution_id := "e-bogus", request_id := "r-bogus", user_id := "U1",
    channel_id := "C1"
    steps := [{ step_id := "mystery", step_type := "telepathy" }]
    status := OperationStatus.processing }

/-- Push a sequence of (payload, priority, clock) triples onto one channel
with `MessageQueue.publish`, left to right. -/
def pushSeq (st : QueueState) (channel : String) :
    List (PyVal × Int × Nat) → QueueState
  | [] => st
  | t :: rest =>
    pushSeq (MessageQueue.publish st channel t.1 t.2.1 t.2.2) channel rest

/-- A Redis keyspace with every channel empty. -/
def emptyQueue : QueueState := fun _ => []

/-- A handler that always raises. -/
def raisingHandler : Handler := fun _ => Except.error "handler boom"

/-- A handler that always returns its input. -/
def echoHandler : Handler := fun v => Except.ok v

/-- A bus with a raising handler registered before a well-behaved one for
the same event type. -/
def busTwoHandlers : EventBus :=
  (EventBus.register_handler { } "t" raisingHandler).register_handler
    "t" echoHandler

/-! ## Proofs

### Trace observation lemmas -/

@[simp] theorem execIndices_nil : execIndices [] = [] := rfl

@[simp] theorem execIndices_cons_call (i : Nat) (s : String)
    (tr : List TraceEvent) :
    execIndices (TraceEvent.execCall i s :: tr) = i :: execIndices tr := rfl

@[simp] theorem execIndices_cons_eff (e : EffEvent) (tr : List TraceEvent) :
    execIndices (TraceEvent.eff e :: tr) = execIndices tr := rfl

@[simp] theorem execIndices_cons_sleep (s : Nat) (tr : List TraceEvent) :
    execIndices (TraceEvent.sleep s :: tr) = execIndices tr := rfl

@[simp] theorem execIndices_cons_emit (t : String) (p : PyVal)
    (tr : List TraceEvent) :
    execIndices (TraceEvent.emitEvent t p :: tr) = execIndices tr := rfl

@[simp] theorem execIndices_append (a b : List TraceEvent) :
    execIndices (a ++ b) = execIndices a ++ execIndices b :=
  List.filterMap_append a b _

@[simp] theorem execIndices_map_eff (effs : List EffEvent) :
    execIndices (effs.map TraceEvent.eff) = [] := by
  induction effs with
  | nil => rfl
  | cons e rest ih => simpa using ih

@[simp] theorem sleepDurations_nil : sleepDurations [] = [] := rfl

@[simp] theorem sleepDurations_cons_call (i : Nat) (s : String)
    (tr : List TraceEvent) :
    sleepDurations (TraceEvent.execCall i s :: tr) = sleepDurations tr := rfl

@[simp] theorem sleepDurations_cons_eff (e : EffEvent) (tr : List TraceEvent) :
    sleepDurations (TraceEvent.eff e :: tr) = sleepDurations tr := rfl

@[simp] theorem sleepDurations_cons_sleep (s : Nat) (tr : List TraceEvent) :
    sleepDurations (TraceEvent.sleep s :: tr) = s :: sleepDurations tr := rfl

@[simp] theorem sleepDurations_cons_emit (t : String) (p : PyVal)
    (tr : List TraceEvent) :
    sleepDurations (TraceEvent.emitEvent t p :: tr) = sleepDurations tr := rfl

@[simp] theorem sleepDurations_append (a b : List TraceEvent) :
    sleepDurations (a ++ b) = sleepDurations a ++ sleepDurations b :=
  List.filterMap_append a b _

@[simp] theorem sleepDurations_map_eff (effs : List EffEvent) :
    sleepDurations (effs.map TraceEvent.eff) = [] := by
  induction effs with
  | nil => rfl
  | cons e rest ih => simpa using ih

@[simp] theorem countEmits_nil (t : String) : countEmits t [] = 0 := rfl

@[simp] theorem countEmits_cons_call (t : String) (i : Nat) (s : String)
    (tr : List TraceEvent) :
    countEmits t (TraceEvent.execCall i s :: tr) = countEmits t tr := by
  simp [countEmits, List.countP_cons]

@[simp] theorem countEmits_cons_eff (t : String) (e : EffEvent)
    (tr : List TraceEvent) :
    countEmits t (TraceEvent.eff e :: tr) = countEmits t tr := by
  simp [countEmits, List.countP_cons]

@[simp] theorem countEmits_cons_sleep (t : String) (s : Nat)
    (tr : List TraceEvent) :
    countEmits t (TraceEvent.sleep s :: tr) = countEmits t tr := by
  simp [countEmits, List.countP_cons]

@[simp] theorem countEmits_cons_emit (t u : String) (p : PyVal)
    (tr : List TraceEvent) :
    countEmits t (TraceEvent.emitEvent u p :: tr) =
      countEmits t tr + if u = t then 1 else 0 := by
  simp [countEmits, List.countP_cons]

@[simp] theorem countEmits_append (t : String) (a b : List TraceEvent) :
    countEmits t (a ++ b) = countEmits t a + countEmits t b :=
  List.countP_append _ a b

@[simp] theorem countEmits_map_eff (t : String) (effs : List EffEvent) :
    countEmits t (effs.map TraceEvent.eff) = 0 := by
  induction effs with
  | nil => rfl
  | cons e rest ih => simpa using ih

@[simp] theorem countChannelPublishes_nil (c : String) :
    countChannelPublishes c [] = 0 := rfl

@[simp] theorem countChannelPublishes_cons_call (c : String) (i : Nat)
    (s : String) (tr : List TraceEvent) :
    countChannelPublishes c (TraceEvent.execCall i s :: tr) =
      countChannelPublishes c tr := by
  simp [countChannelPublishes, List.countP_cons]

@[simp] theorem countChannelPublishes_cons_eff (c d : String) (p : PyVal)
    (tr : List TraceEvent) :
    countChannelPublishes c (TraceEvent.eff (EffEvent.queuePublish d p) :: tr) =
      countChannelPublishes c tr + if d = c then 1 else 0 := by
  simp [countChannelPublishes, List.countP_cons]

@[simp] theorem countChannelPublishes_cons_sleep (c : String) (s : Nat)
    (tr : List TraceEvent) :
    countChannelPublishes c (TraceEvent.sleep s :: tr) =
      countChannelPublishes c tr := by
  simp [countChannelPublishes, List.countP_cons]

@[simp] theorem countChannelPublishes_cons_emit (c t : String) (p : PyVal)
    (tr : List TraceEvent) :
    countChannelPublishes c (TraceEvent.emitEvent t p :: tr) =
      countChannelPublishes c tr := by
  simp [countChannelPublishes, List.countP_cons]

@[simp] theorem countChannelPublishes_append (c : String)
    (a b : List TraceEvent) :
    countChannelPublishes c (a ++ b) =
      countChannelPublishes c a + countChannelPublishes c b :=
  List.countP_append _ a b

@[simp] theorem coreEvents_nil : coreEvents [] = [] := rfl

@[simp] theorem coreEvents_cons_call (i : Nat) (s : String)
    (tr : List TraceEvent) :
    coreEvents (TraceEvent.execCall i s :: tr) =
      TraceEvent.execCall i s :: coreEvents tr := rfl

@[simp] theorem coreEvents_cons_eff (e : EffEvent) (tr : List TraceEvent) :
    coreEvents (TraceEvent.eff e :: tr) = coreEvents tr := rfl

@[simp] theorem coreEvents_cons_sleep (s : Nat) (tr : List TraceEvent) :
    coreEvents (TraceEvent.sleep s :: tr) =
      TraceEvent.sleep s :: coreEvents tr := rfl

@[simp] theorem coreEvents_cons_emit (t : String) (p : PyVal)
    (tr : List TraceEvent) :
    coreEvents (TraceEvent.emitEvent t p :: tr) = coreEvents tr := rfl

@[simp] theorem coreEvents_append (a b : List TraceEvent) :
    coreEvents (a ++ b) = coreEvents a ++ coreEvents b :=
  List.filter_append a b

@[simp] theorem coreEvents_map_eff (effs : List EffEvent) :
    coreEvents (effs.map TraceEvent.eff) = [] := by
  induction effs with
  | nil => rfl
  | cons e rest ih => simpa using ih

@[simp] theorem execCallCount_def (tr : List TraceEvent) :
    execCallCount tr = (execIndices tr).length := rfl

/-! ### Budget lemmas -/

theorem stepBudget_pos (s : WorkflowStep) : 1 ≤ stepBudget s := by
  simp [stepBudget]

theorem remBudget_advance {steps : List WorkflowStep} {c : Nat}
    (h : c < steps.length) :
    remBudget steps c = stepBudget steps[c] + remBudget steps (c + 1) := by
  unfold remBudget
  rw [List.drop_eq_getElem_cons h, List.map_cons, List.sum_cons]

theorem remBudget_set {steps : List WorkflowStep} {c : Nat}
    (h : c < steps.length) (s' : WorkflowStep) :
    remBudget (steps.set c s') c = stepBudget s' + remBudget steps (c + 1) := by
  unfold remBudget
  rw [List.drop_eq_getElem_cons (l := steps.set c s') (by simpa using h),
    List.getElem_set_self, List.drop_set]
  simp

/-! ### The cursor step and the loop's state transformers -/

theorem stepAt_eq {wf : WorkflowExecution}
    (hlt : wf.current_step < wf.steps.length) :
    stepAt wf = wf.steps[wf.current_step] := by
  simp [stepAt, List.getElem?_eq_getElem hlt]

@[simp] theorem bumpRetry_results (wf : WorkflowExecution) :
    (bumpRetry wf).results = wf.results := rfl

@[simp] theorem bumpRetry_errors (wf : WorkflowExecution) :
    (bumpRetry wf).errors = wf.errors := rfl

@[simp] theorem bumpRetry_current (wf : WorkflowExecution) :
    (bumpRetry wf).current_step = wf.current_step := rfl

@[simp] theorem bumpRetry_status (wf : WorkflowExecution) :
    (bumpRetry wf).status = wf.status := rfl

@[simp] theorem bumpRetry_steps_length (wf : WorkflowExecution) :
    (bumpRetry wf).steps.length = wf.steps.length := by
  simp [bumpRetry]

theorem stepAt_bumpRetry {wf : WorkflowExecution}
    (hlt : wf.current_step < wf.steps.length) :
    stepAt (bumpRetry wf) =
      { stepAt wf with retry_count := (stepAt wf).retry_count + 1 } := by
  show ((wf.steps.set wf.current_step _)[wf.current_step]?).getD _ = _
  rw [List.getElem?_eq_getElem (by simpa using hlt), List.getElem_set_self]
  rfl

theorem deps_bumpRetry (wf : WorkflowExecution)
    (hlt : wf.current_step < wf.steps.length) :
    are_dependencies_satisfied (bumpRetry wf) (stepAt (bumpRetry wf)) =
      are_dependencies_satisfied wf (stepAt wf) := by
  rw [stepAt_bumpRetry hlt]
  rfl

@[simp] theorem advanceOk_current (wf : WorkflowExecution) (result : PyVal) :
    (advanceOk wf result).current_step = wf.current_step + 1 := rfl

@[simp] theorem advanceOk_steps (wf : WorkflowExecution) (result : PyVal) :
    (advanceOk wf result).steps = wf.steps := rfl

@[simp] theorem advanceOk_status (wf : WorkflowExecution) (result : PyVal) :
    (advanceOk wf result).status = wf.status := rfl

@[simp] theorem advanceOk_errors (wf : WorkflowExecution) (result : PyVal) :
    (advanceOk wf result).errors = wf.errors := rfl

@[simp] theorem advanceOk_results (wf : WorkflowExecution) (result : PyVal) :
    (advanceOk wf result).results =
      wf.results ++ [((stepAt wf).step_id, result)] := rfl

@[simp] theorem terminalFail_status (wf : WorkflowExecution) (e : String) :
    (terminalFail wf e).status = OperationStatus.failed := rfl

@[simp] theorem terminalFail_current (wf : WorkflowExecution) (e : String) :
    (terminalFail wf e).current_step = wf.current_step := rfl

@[simp] theorem terminalFail_errors (wf : WorkflowExecution) (e : String) :
    (terminalFail wf e).errors =
      wf.errors ++ ["Step " ++ (stepAt wf).step_id ++ " failed: " ++ e] := rfl

@[simp] theorem terminalFail_results (wf : WorkflowExecution) (e : String) :
    (terminalFail wf e).results = wf.results := rfl

@[simp] theorem terminalFail_steps_length (wf : WorkflowExecution) (e : String) :
    (terminalFail wf e).steps.length = wf.steps.length := by
  show (bumpRetry wf).steps.length = _
  simp

theorem stepAt_terminalFail {wf : WorkflowExecution} (e : String)
    (hlt : wf.current_step < wf.steps.length) :
    stepAt (terminalFail wf e) =
      { stepAt wf with retry_count := (stepAt wf).retry_count + 1 } := by
  show ((bumpRetry wf).steps[wf.current_step]?).getD _ = _
  have := stepAt_bumpRetry hlt
  simpa [stepAt] using this

@[simp] theorem depFail_status (wf : WorkflowExecution) :
    (depFail wf).status = OperationStatus.failed := rfl

@[simp] theorem depFail_current (wf : WorkflowExecution) :
    (depFail wf).current_step = wf.current_step := rfl

@[simp] theorem depFail_errors (wf : WorkflowExecution) :
    (depFail wf).errors = wf.errors ++
      ["Dependencies not satisfied for step " ++ (stepAt wf).step_id] := rfl

@[simp] theorem depFail_steps (wf : WorkflowExecution) :
    (depFail wf).steps = wf.steps := rfl

@[simp] theorem depFail_results (wf : WorkflowExecution) :
    (depFail wf).results = wf.results := rfl

/-! ### One-iteration unfolding of the execution loop -/

theorem execLoopFuel_zero (ex : StepExec) (wf : WorkflowExecution) :
    execLoopFuel ex 0 wf = (wf, []) := rfl

theorem execLoopFuel_done (ex : StepExec) (fuel : Nat) (wf : WorkflowExecution)
    (h : ¬ wf.current_step < wf.steps.length) :
    execLoopFuel ex (fuel + 1) wf = (wf, []) := by
  simp only [execLoopFuel]
  rw [dif_neg h]

theorem execLoopFuel_depfail (ex : StepExec) (fuel : Nat)
    (wf : WorkflowExecution) (hlt : wf.current_step < wf.steps.length)
    (hdep : are_dependencies_satisfied wf (stepAt wf) = false) :
    execLoopFuel ex (fuel + 1) wf = (depFail wf, []) := by
  have hs := stepAt_eq hlt
  rw [hs] at hdep
  simp only [depFail, hs]
  simp only [execLoopFuel]
  rw [dif_pos hlt, if_neg (by simp [hdep])]

theorem execLoopFuel_ok (ex : StepExec) (fuel : Nat) (wf : WorkflowExecution)
    (hlt : wf.current_step < wf.steps.length)
    (hdep : are_dependencies_satisfied wf (stepAt wf) = true)
    (effs : List EffEvent) (result : PyVal)
    (hx : ex wf (stepAt wf) = (effs, Except.ok result)) :
    execLoopFuel ex (fuel + 1) wf =
      ((execLoopFuel ex fuel (advanceOk wf result)).1,
       TraceEvent.execCall wf.current_step (stepAt wf).step_id ::
         (effs.map TraceEvent.eff ++
          (TraceEvent.emitEvent "workflow_step_completed"
             (stepCompletedPayload wf (stepAt wf) result) ::
           (execLoopFuel ex fuel (advanceOk wf result)).2))) := by
  have hs := stepAt_eq hlt
  rw [hs] at hdep hx
  simp only [advanceOk, hs]
  simp only [execLoopFuel]
  rw [dif_pos hlt, if_pos hdep, hx]

theorem execLoopFuel_fail_retry (ex : StepExec) (fuel : Nat)
    (wf : WorkflowExecution) (hlt : wf.current_step < wf.steps.length)
    (hdep : are_dependencies_satisfied wf (stepAt wf) = true)
    (effs : List EffEvent) (e : String)
    (hx : ex wf (stepAt wf) = (effs, Except.error e))
    (hretry : (stepAt wf).retry_count + 1 < (stepAt wf).max_retries) :
    execLoopFuel ex (fuel + 1) wf =
      ((execLoopFuel ex fuel (bumpRetry wf)).1,
       TraceEvent.execCall wf.current_step (stepAt wf).step_id ::
         (effs.map TraceEvent.eff ++
          (TraceEvent.sleep (2 ^ ((stepAt wf).retry_count + 1)) ::
           (execLoopFuel ex fuel (bumpRetry wf)).2))) := by
  have hs := stepAt_eq hlt
  rw [hs] at hdep hx hretry
  simp only [bumpRetry, hs]
  simp only [execLoopFuel]
  rw [dif_pos hlt, if_pos hdep, hx]
  simp only [if_pos hretry]

theorem execLoopFuel_fail_terminal (ex : StepExec) (fuel : Nat)
    (wf : WorkflowExecution) (hlt : wf.current_step < wf.steps.length)
    (hdep : are_dependencies_satisfied wf (stepAt wf) = true)
    (effs : List EffEvent) (e : String)
    (hx : ex wf (stepAt wf) = (effs, Except.error e))
    (hterm : ¬ (stepAt wf).retry_count + 1 < (stepAt wf).max_retries) :
    execLoopFuel ex (fuel + 1) wf =
      (terminalFail wf e,
       TraceEvent.execCall wf.current_step (stepAt wf).step_id ::
         (effs.map TraceEvent.eff ++
          [TraceEvent.emitEvent "workflow_step_failed"
             (stepFailedPayload wf (stepAt wf) e)])) := by
  have hs := stepAt_eq hlt
  rw [hs] at hdep hx hterm
  simp only [terminalFail, bumpRetry, hs]
  simp only [execLoopFuel]
  rw [dif_pos hlt, if_pos hdep, hx]
  simp only [if_neg hterm]

/-- The epilogue leaves the loop output unchanged when the cursor did not
reach the end of the step list. -/
theorem execWorkflowPost_not_completed (out : WorkflowExecution × List TraceEvent)
    (h : out.1.current_step < out.1.steps.length) :
    execWorkflowPost out = out := by
  unfold execWorkflowPost
  rw [if_neg]
  rintro ⟨h1, -⟩
  simp only [WorkflowExecution.is_completed, decide_eq_true_eq] at h1
  omega

/-- The epilogue marks the workflow completed and emits `workflow_completed`
when the cursor reached the end and the loop did not fail. -/
theorem execWorkflowPost_completed (out : WorkflowExecution × List TraceEvent)
    (h1 : out.1.is_completed = true) (h2 : out.1.status ≠ OperationStatus.failed) :
    execWorkflowPost out =
      ({ out.1 with status := OperationStatus.completed, end_time_stamped := true },
       out.2 ++ [TraceEvent.emitEvent "workflow_completed"
         (workflowCompletedPayload out.1)]) := by
  unfold execWorkflowPost
  rw [if_pos ⟨by simp [h1], h2⟩]

/-! ### Trace bookkeeping lemmas -/

theorem execIndices_coreEvents (tr : List TraceEvent) :
    execIndices (coreEvents tr) = execIndices tr := by
  induction tr with
  | nil => rfl
  | cons ev rest ih => cases ev <;> simp [ih]

theorem sleepDurations_coreEvents (tr : List TraceEvent) :
    sleepDurations (coreEvents tr) = sleepDurations tr := by
  induction tr with
  | nil => rfl
  | cons ev rest ih => cases ev <;> simp [ih]

theorem sleepDurations_attemptList (i : Nat) (sid : String) (f : Nat → Nat)
    (ns : List Nat) :
    sleepDurations ((ns.flatMap (fun j => [TraceEvent.execCall i sid,
        TraceEvent.sleep (f j)])) ++ [TraceEvent.execCall i sid]) = ns.map f := by
  induction ns with
  | nil => rfl
  | cons n rest ih => simpa using ih

theorem execIndices_attemptList (i : Nat) (sid : String) (f : Nat → Nat)
    (ns : List Nat) :
    execIndices ((ns.flatMap (fun j => [TraceEvent.execCall i sid,
        TraceEvent.sleep (f j)])) ++ [TraceEvent.execCall i sid]) =
      List.replicate (ns.length + 1) i := by
  induction ns with
  | nil => rfl
  | cons n rest ih =>
    simp only [List.flatMap_cons, List.append_assoc, List.cons_append,
      List.nil_append, execIndices_cons_call, execIndices_cons_sleep] at ih ⊢
    rw [ih]
    simp [List.replicate_succ]

theorem flatMap_range_succ_shift (n : Nat) (g : Nat → List TraceEvent) :
    (List.range (n + 1)).flatMap g =
      g 0 ++ (List.range n).flatMap (fun j => g (j + 1)) := by
  rw [List.range_succ_eq_map]
  simp [List.flatMap_map, Function.comp]

theorem remainingBudget_bumpRetry_lt {wf : WorkflowExecution}
    (hlt : wf.current_step < wf.steps.length)
    (h : (stepAt wf).retry_count < (stepAt wf).max_retries) :
    remainingBudget (bumpRetry wf) < remainingBudget wf := by
  have hs := stepAt_eq hlt
  have h1 : remainingBudget wf = stepBudget wf.steps[wf.current_step] +
      remBudget wf.steps (wf.current_step + 1) := remBudget_advance hlt
  have h2 : remainingBudget (bumpRetry wf) =
      stepBudget { stepAt wf with retry_count := (stepAt wf).retry_count + 1 } +
        remBudget wf.steps (wf.current_step + 1) := remBudget_set hlt _
  rw [← hs] at h1
  simp only [stepBudget] at h1 h2
  omega

/-! ### Behaviour of the loop on a step that fails every attempt -/

/-- Master lemma: when the cursor step's executor fails on every attempt
(with errors satisfying `Perr`), the loop performs `attemptsOf` attempts
interleaved with the exponential backoff sleeps, never advances the
cursor, ends failed with exactly one appended error and one
`workflow_step_failed` emission, and never emits `workflow_completed`. -/
theorem execLoopFuel_alwaysFail (ex : StepExec) (Perr : String → Prop)
    (sid sty : String)
    (hfail : ∀ w s, s.step_id = sid → s.step_type = sty →
      ∃ effs e, ex w s = (effs, Except.error e) ∧ Perr e) :
    ∀ fuel wf, remainingBudget wf < fuel →
      wf.current_step < wf.steps.length →
      (stepAt wf).step_id = sid →
      (stepAt wf).step_type = sty →
      are_dependencies_satisfied wf (stepAt wf) = true →
      (execLoopFuel ex fuel wf).1.status = OperationStatus.failed ∧
      (execLoopFuel ex fuel wf).1.current_step = wf.current_step ∧
      (execLoopFuel ex fuel wf).1.steps.length = wf.steps.length ∧
      (stepAt (execLoopFuel ex fuel wf).1).retry_count =
        (stepAt wf).retry_count + attemptsOf (stepAt wf) ∧
      (∃ e, Perr e ∧ (execLoopFuel ex fuel wf).1.errors =
        wf.errors ++ ["Step " ++ sid ++ " failed: " ++ e]) ∧
      coreEvents (execLoopFuel ex fuel wf).2 =
        (List.range (attemptsOf (stepAt wf) - 1)).flatMap
          (fun j => [TraceEvent.execCall wf.current_step sid,
             TraceEvent.sleep (2 ^ ((stepAt wf).retry_count + j + 1))]) ++
        [TraceEvent.execCall wf.current_step sid] ∧
      countEmits "workflow_step_failed" (execLoopFuel ex fuel wf).2 = 1 ∧
      countEmits "workflow_completed" (execLoopFuel ex fuel wf).2 = 0 := by
  intro fuel
  induction fuel with
  | zero => intro wf hfuel; omega
  | succ fuel ih =>
    intro wf hfuel hlt hid hty hdep
    obtain ⟨effs, e, hx, hPe⟩ := hfail wf (stepAt wf) hid hty
    by_cases hretry : (stepAt wf).retry_count + 1 < (stepAt wf).max_retries
    · -- a retry remains: failed attempt, sleep, recurse on the bumped state
      rw [execLoopFuel_fail_retry ex fuel wf hlt hdep effs e hx hretry]
      have hbud' : remainingBudget (bumpRetry wf) < fuel := by
        have := remainingBudget_bumpRetry_lt hlt (by omega)
        omega
      have hlt' : (bumpRetry wf).current_step < (bumpRetry wf).steps.length := by
        simpa using hlt
      have hid' : (stepAt (bumpRetry wf)).step_id = sid := by
        rw [stepAt_bumpRetry hlt]; exact hid
      have hty' : (stepAt (bumpRetry wf)).step_type = sty := by
        rw [stepAt_bumpRetry hlt]; exact hty
      have hdep' : are_dependencies_satisfied (bumpRetry wf)
          (stepAt (bumpRetry wf)) = true := by
        rw [deps_bumpRetry wf hlt]; exact hdep
      obtain ⟨k1, k2, k3, k4, k5, k6, k7, k8⟩ :=
        ih (bumpRetry wf) hbud' hlt' hid' hty' hdep'
      have hA : attemptsOf (stepAt wf) =
          (stepAt wf).max_retries - (stepAt wf).retry_count := by
        simp only [attemptsOf]
        rw [if_pos (show (stepAt wf).retry_count < (stepAt wf).max_retries
          by omega)]
      have hB : attemptsOf { stepAt wf with
          retry_count := (stepAt wf).retry_count + 1 } =
          (stepAt wf).max_retries - ((stepAt wf).retry_count + 1) := by
        simp only [attemptsOf]
        rw [if_pos hretry]
      have hrc : ({ stepAt wf with
          retry_count := (stepAt wf).retry_count + 1 } :
          WorkflowStep).retry_count = (stepAt wf).retry_count + 1 := rfl
      rw [stepAt_bumpRetry hlt] at k4 k6
      rw [hrc, hB] at k4 k6
      refine ⟨k1, by exact k2, by simpa using k3, ?_, ?_, ?_,
        by simpa using k7, by simpa using k8⟩
      · show (stepAt (execLoopFuel ex fuel (bumpRetry wf)).1).retry_count = _
        rw [k4, hA]
        omega
      · obtain ⟨e', hPe', herr⟩ := k5
        exact ⟨e', hPe', by simpa using herr⟩
      · -- trace of attempts and sleeps
        have hexp : ∀ j : Nat, (stepAt wf).retry_count + 1 + j + 1 =
            (stepAt wf).retry_count + (j + 1) + 1 := fun j => by omega
        simp only [hexp] at k6
        have hn : attemptsOf (stepAt wf) - 1 =
            ((stepAt wf).max_retries - ((stepAt wf).retry_count + 1) - 1) + 1 := by
          rw [hA]; omega
        simp only [coreEvents_cons_call, coreEvents_append, coreEvents_map_eff,
          List.nil_append, coreEvents_cons_sleep, k6, hid]
        rw [hn, flatMap_range_succ_shift]
        simp [List.append_assoc]
    · -- retries exhausted: terminal failure
      rw [execLoopFuel_fail_terminal ex fuel wf hlt hdep effs e hx hretry]
      have hatt1 : attemptsOf (stepAt wf) = 1 := by
        simp only [attemptsOf]
        split <;> omega
      refine ⟨rfl, rfl, by simp, ?_, ⟨e, hPe, by simp [hid]⟩,
        ?_, ?_, ?_⟩
      · show (stepAt (terminalFail wf e)).retry_count = _
        rw [stepAt_terminalFail e hlt, hatt1]
      · rw [hatt1]
        simp [hid]
      · simp
      · simp

/-- `execute_workflow` on a workflow whose cursor step fails every
attempt: the epilogue does not fire (the cursor never reached the end), so
all conclusions of the loop lemma carry over. -/
theorem execute_workflow_alwaysFail (ex : StepExec) (Perr : String → Prop)
    (sid sty : String)
    (hfail : ∀ w s, s.step_id = sid → s.step_type = sty →
      ∃ effs e, ex w s = (effs, Except.error e) ∧ Perr e)
    (wf : WorkflowExecution)
    (hlt : wf.current_step < wf.steps.length)
    (hid : (stepAt wf).step_id = sid)
    (hty : (stepAt wf).step_type = sty)
    (hdep : are_dependencies_satisfied wf (stepAt wf) = true) :
    (execute_workflow ex wf).1.status = OperationStatus.failed ∧
    (execute_workflow ex wf).1.current_step = wf.current_step ∧
    (execute_workflow ex wf).1.steps.length = wf.steps.length ∧
    (stepAt (execute_workflow ex wf).1).retry_count =
      (stepAt wf).retry_count + attemptsOf (stepAt wf) ∧
    (∃ e, Perr e ∧ (execute_workflow ex wf).1.errors =
      wf.errors ++ ["Step " ++ sid ++ " failed: " ++ e]) ∧
    coreEvents (execute_workflow ex wf).2 =
      (List.range (attemptsOf (stepAt wf) - 1)).flatMap
        (fun j => [TraceEvent.execCall wf.current_step sid,
           TraceEvent.sleep (2 ^ ((stepAt wf).retry_count + j + 1))]) ++
      [TraceEvent.execCall wf.current_step sid] ∧
    countEmits "workflow_step_failed" (execute_workflow ex wf).2 = 1 ∧
    countEmits "workflow_completed" (execute_workflow ex wf).2 = 0 := by
  obtain ⟨k1, k2, k3, k4, k5, k6, k7, k8⟩ :=
    execLoopFuel_alwaysFail ex Perr sid sty hfail (remainingBudget wf + 1) wf
      (by omega) hlt hid hty hdep
  unfold execute_workflow
  rw [execWorkflowPost_not_completed _ (by rw [k2, k3]; exact hlt)]
  exact ⟨k1, k2, k3, k4, k5, k6, k7, k8⟩

/-- **C1.** A step whose executor fails on every attempt is attempted
exactly `max_retries` times; the terminal failure appends the error,
sets the status to failed, and the loop exits without advancing
`current_step`. -/
theorem c1_retry_exhaustion_attempt_count (ex : StepExec)
    (wf : WorkflowExecution)
    (hfail : ∀ w s, ∃ effs e, ex w s = (effs, Except.error e))
    (hlt : wf.current_step < wf.steps.length)
    (hdep : are_dependencies_satisfied wf (stepAt wf) = true)
    (hrc : (stepAt wf).retry_count = 0)
    (hmax : 1 ≤ (stepAt wf).max_retries) :
    execCallCount (execute_workflow ex wf).2 = (stepAt wf).max_retries ∧
    (execute_workflow ex wf).1.status = OperationStatus.failed ∧
    (∃ e, (execute_workflow ex wf).1.errors =
      wf.errors ++ ["Step " ++ (stepAt wf).step_id ++ " failed: " ++ e]) ∧
    (execute_workflow ex wf).1.current_step = wf.current_step := by
  obtain ⟨k1, k2, k3, k4, k5, k6, k7, k8⟩ :=
    execute_workflow_alwaysFail ex (fun _ => True) (stepAt wf).step_id
      (stepAt wf).step_type
      (fun w s _ _ => by
        obtain ⟨effs, e, hx⟩ := hfail w s
        exact ⟨effs, e, hx, trivial⟩)
      wf hlt rfl rfl hdep
  refine ⟨?_, k1, ?_, k2⟩
  · have h1 : execCallCount (execute_workflow ex wf).2 =
        (execIndices (coreEvents (execute_workflow ex wf).2)).length := by
      rw [execCallCount_def, execIndices_coreEvents]
    rw [h1, k6, execIndices_attemptList, List.length_replicate,
      List.length_range]
    have : attemptsOf (stepAt wf) = (stepAt wf).max_retries := by
      simp only [attemptsOf]
      rw [if_pos (show (stepAt wf).retry_count < (stepAt wf).max_retries
        by omega)]
      omega
    omega
  · obtain ⟨e, -, herr⟩ := k5
    exact ⟨e, herr⟩

/-- Witness for C1: the single-step workflow with default `max_retries = 3`
and an executor that always raises is attempted exactly 3 times. -/
theorem c1_witness :
    (wfOneStep.current_step < wfOneStep.steps.length ∧
     are_dependencies_satisfied wfOneStep (stepAt wfOneStep) = true ∧
     (stepAt wfOneStep).retry_count = 0 ∧
     1 ≤ (stepAt wfOneStep).max_retries ∧
     (stepAt wfOneStep).max_retries = 3) ∧
    (execCallCount (execute_workflow alwaysFailExec wfOneStep).2 =
      (stepAt wfOneStep).max_retries ∧
    (execute_workflow alwaysFailExec wfOneStep).1.status =
      OperationStatus.failed ∧
    (∃ e, (execute_workflow alwaysFailExec wfOneStep).1.errors =
      wfOneStep.errors ++
        ["Step " ++ (stepAt wfOneStep).step_id ++ " failed: " ++ e]) ∧
    (execute_workflow alwaysFailExec wfOneStep).1.current_step =
      wfOneStep.current_step) :=
  ⟨⟨by decide, by decide, by decide, by decide, by decide⟩,
   c1_retry_exhaustion_attempt_count alwaysFailExec wfOneStep
     (fun _ _ => ⟨[], "boom", rfl⟩) (by decide) (by decide) (by decide)
     (by decide)⟩



/-- **C4.** With a fresh step (`retry_count = 0`) whose executor fails
every attempt, each failed attempt that is followed by a retry is preceded
by a sleep of `2 ^ retry_count` seconds (post-increment value): the sleeps
are exactly `2, 4, 8, …` in order, each placed between the failed attempt
and the retry that follows it. -/
theorem c4_exponential_backoff (ex : StepExec) (wf : WorkflowExecution)
    (hfail : ∀ w s, ∃ effs e, ex w s = (effs, Except.error e))
    (hlt : wf.current_step < wf.steps.length)
    (hdep : are_dependencies_satisfied wf (stepAt wf) = true)
    (hrc : (stepAt wf).retry_count = 0) :
    sleepDurations (execute_workflow ex wf).2 =
      (List.range ((stepAt wf).max_retries - 1)).map (fun j => 2 ^ (j + 1)) ∧
    coreEvents (execute_workflow ex wf).2 =
      (List.range ((stepAt wf).max_retries - 1)).flatMap
        (fun j => [TraceEvent.execCall wf.current_step (stepAt wf).step_id,
           TraceEvent.sleep (2 ^ (j + 1))]) ++
      [TraceEvent.execCall wf.current_step (stepAt wf).step_id] := by
  obtain ⟨k1, k2, k3, k4, k5, k6, k7, k8⟩ :=
    execute_workflow_alwaysFail ex (fun _ => True) (stepAt wf).step_id
      (stepAt wf).step_type
      (fun w s _ _ => by
        obtain ⟨effs, e, hx⟩ := hfail w s
        exact ⟨effs, e, hx, trivial⟩)
      wf hlt rfl rfl hdep
  have hexp : ∀ j : Nat, (stepAt wf).retry_count + j + 1 = j + 1 := by
    intro j; omega
  simp only [hexp] at k6
  have hatt : attemptsOf (stepAt wf) - 1 = (stepAt wf).max_retries - 1 := by
    simp only [attemptsOf]
    split <;> omega
  rw [hatt] at k6
  constructor
  · rw [← sleepDurations_coreEvents, k6, sleepDurations_attemptList]
  · exact k6

/-- Witness for C4: a step allowing four attempts sleeps 2 s, 4 s and 8 s
before its three retries. -/
theorem c4_witness :
    (wfFourTries.current_step < wfFourTries.steps.length ∧
     are_dependencies_satisfied wfFourTries (stepAt wfFourTries) = true ∧
     (stepAt wfFourTries).retry_count = 0) ∧
    sleepDurations (execute_workflow alwaysFailExec wfFourTries).2 =
      (List.range ((stepAt wfFourTries).max_retries - 1)).map
        (fun j => 2 ^ (j + 1)) ∧
    (List.range ((stepAt wfFourTries).max_retries - 1)).map
        (fun j => 2 ^ (j + 1)) = [2, 4, 8] :=
  ⟨⟨by decide, by decide, by decide⟩,
   (c4_exponential_backoff alwaysFailExec wfFourTries
     (fun _ _ => ⟨[], "boom", rfl⟩) (by decide) (by decide) (by decide)).1,
   by decide⟩

/-- **C10.** Dispatching a step whose `step_type` is none of the six
built-in tags raises `Unknown step type: <tag>` on every attempt; the
engine therefore attempts the step `max_retries` times with backoff
sleeps in between, marks the workflow failed, and records an error naming
the step and the unknown tag. -/
theorem c10_unknown_step_type_retried (collab : Collaborators)
    (wf : WorkflowExecution)
    (hlt : wf.current_step < wf.steps.length)
    (hdep : are_dependencies_satisfied wf (stepAt wf) = true)
    (hrc : (stepAt wf).retry_count = 0)
    (hmax : 1 ≤ (stepAt wf).max_retries)
    (hunk : ¬ (stepAt wf).step_type ∈ ["nlp", "validation", "github",
      "code_generation", "pr_analysis", "notification"]) :
    execCallCount (execute_workflow (execute_step collab) wf).2 =
      (stepAt wf).max_retries ∧
    sleepDurations (execute_workflow (execute_step collab) wf).2 =
      (List.range ((stepAt wf).max_retries - 1)).map (fun j => 2 ^ (j + 1)) ∧
    (execute_workflow (execute_step collab) wf).1.status =
      OperationStatus.failed ∧
    (stepAt (execute_workflow (execute_step collab) wf).1).retry_count =
      (stepAt wf).max_retries ∧
    (execute_workflow (execute_step collab) wf).1.errors = wf.errors ++
      ["Step " ++ (stepAt wf).step_id ++ " failed: " ++
        ("Unknown step type: " ++ (stepAt wf).step_type)] := by
  simp only [List.mem_cons, List.mem_singleton, not_or] at hunk
  obtain ⟨hn1, hn2, hn3, hn4, hn5, hn6, -⟩ := hunk
  obtain ⟨k1, k2, k3, k4, k5, k6, k7, k8⟩ :=
    execute_workflow_alwaysFail (execute_step collab)
      (fun e => e = "Unknown step type: " ++ (stepAt wf).step_type)
      (stepAt wf).step_id (stepAt wf).step_type
      (fun w s h1 h2 => by
        refine ⟨[], "Unknown step type: " ++ (stepAt wf).step_type, ?_, rfl⟩
        simp only [execute_step, h2]
        rw [if_neg hn1, if_neg hn2, if_neg hn3, if_neg hn4, if_neg hn5,
          if_neg hn6])
      wf hlt rfl rfl hdep
  have hatt : attemptsOf (stepAt wf) = (stepAt wf).max_retries := by
    simp only [attemptsOf]
    rw [if_pos (show (stepAt wf).retry_count < (stepAt wf).max_retries
      by omega)]
    omega
  have hexp : ∀ j : Nat, (stepAt wf).retry_count + j + 1 = j + 1 := by
    intro j; omega
  simp only [hexp, hatt] at k4 k6
  refine ⟨?_, ?_, k1, by rw [k4]; omega, ?_⟩
  · have h1 : execCallCount (execute_workflow (execute_step collab) wf).2 =
        (execIndices (coreEvents (execute_workflow (execute_step collab) wf).2)).length := by
      rw [execCallCount_def, execIndices_coreEvents]
    rw [h1, k6, execIndices_attemptList, List.length_replicate,
      List.length_range]
    omega
  · rw [← sleepDurations_coreEvents, k6, sleepDurations_attemptList]
  · obtain ⟨e, hPe, herr⟩ := k5
    rw [herr, hPe]

/-- Witness for C10: a step typed `telepathy` is attempted three times and
fails the workflow with the `Unknown step type` error. -/
theorem c10_witness :
    (wfBogusType.current_step < wfBogusType.steps.length ∧
     are_dependencies_satisfied wfBogusType (stepAt wfBogusType) = true ∧
     (stepAt wfBogusType).retry_count = 0 ∧
     1 ≤ (stepAt wfBogusType).max_retries ∧
     ¬ (stepAt wfBogusType).step_type ∈ ["nlp", "validation", "github",
       "code_generation", "pr_analysis", "notification"]) ∧
    (execCallCount (execute_workflow (execute_step collabOk) wfBogusType).2 =
      (stepAt wfBogusType).max_retries ∧
    sleepDurations (execute_workflow (execute_step collabOk) wfBogusType).2 =
      (List.range ((stepAt wfBogusType).max_retries - 1)).map
        (fun j => 2 ^ (j + 1)) ∧
    (execute_workflow (execute_step collabOk) wfBogusType).1.status =
      OperationStatus.failed ∧
    (stepAt (execute_workflow (execute_step collabOk) wfBogusType).1).retry_count =
      (stepAt wfBogusType).max_retries ∧
    (execute_workflow (execute_step collabOk) wfBogusType).1.errors =
      wfBogusType.errors ++
        ["Step " ++ (stepAt wfBogusType).step_id ++ " failed: " ++
          ("Unknown step type: " ++ (stepAt wfBogusType).step_type)]) :=
  ⟨⟨by decide, by decide, by decide, by decide, by decide⟩,
   c10_unknown_step_type_retried collabOk wfBogusType (by decide) (by decide)
     (by decide) (by decide) (by decide)⟩

theorem beginsWith_append (s t : List Char) : beginsWith s (s ++ t) = true := by
  induction s with
  | nil => rfl
  | cons c cs ih => simp [beginsWith, ih]

theorem occursIn_append_right (pre s : List Char) :
    occursIn s (pre ++ s) = true := by
  induction pre with
  | nil =>
    cases s with
    | nil => rfl
    | cons c cs =>
      show occursIn (c :: cs) (c :: cs) = true
      have := beginsWith_append (c :: cs) []
      simp only [List.append_nil] at this
      simp [occursIn, this]
  | cons p ps ih =>
    cases s with
    | nil => simp [occursIn, beginsWith]
    | cons c cs => simp [occursIn, ih]

theorem mentions_append_right (pre sid : String) :
    mentions (pre ++ sid) sid = true := by
  show occursIn sid.toList (pre ++ sid).toList = true
  have h : (pre ++ sid).toList = pre.toList ++ sid.toList := by
    simp [String.toList, String.data_append]
  rw [h]
  exact occursIn_append_right pre.toList sid.toList

/-- **C2 (amended).** When the cursor step has a dependency absent from
`results`, the engine immediately (before invoking any executor and with
an empty event trace) marks the workflow failed and records the error
`Dependencies not satisfied for step <step_id>` — a message that names the
*dependent step's* id, not the missing dependency's id. -/
theorem c2_dependency_failure_amended (ex : StepExec) (wf : WorkflowExecution)
    (hlt : wf.current_step < wf.steps.length)
    (hdep : are_dependencies_satisfied wf (stepAt wf) = false) :
    execute_workflow ex wf = (depFail wf, []) ∧
    (execute_workflow ex wf).1.status = OperationStatus.failed ∧
    (execute_workflow ex wf).1.errors = wf.errors ++
      ["Dependencies not satisfied for step " ++ (stepAt wf).step_id] ∧
    mentions ("Dependencies not satisfied for step " ++ (stepAt wf).step_id)
      ((stepAt wf).step_id) = true := by
  have h := execLoopFuel_depfail ex (remainingBudget wf) wf hlt hdep
  have hmain : execute_workflow ex wf = (depFail wf, []) := by
    unfold execute_workflow
    rw [h]
    exact execWorkflowPost_not_completed _ (by simpa using hlt)
  refine ⟨hmain, by rw [hmain]; rfl, by rw [hmain]; rfl, ?_⟩
  exact mentions_append_right "Dependencies not satisfied for step "
    (stepAt wf).step_id

/-- **C2 counterexample.** Step `alpha` depends on `omega`, which is never
in `results`: the workflow fails, but the recorded error message does not
name the missing dependency `omega` — it names the dependent step `alpha`
instead, refuting the claim that the error names the missing dependency's
step id. -/
theorem c2_counterexample :
    (execute_workflow (execute_step collabOk) wfDepMissing).1.status =
      OperationStatus.failed ∧
    (stepAt wfDepMissing).dependencies = ["omega"] ∧
    (lookupStr wfDepMissing.results "omega").isNone = true ∧
    (execute_workflow (execute_step collabOk) wfDepMissing).1.errors =
      ["Dependencies not satisfied for step alpha"] ∧
    mentions "Dependencies not satisfied for step alpha" "omega" = false :=
  ⟨by decide, by decide, by decide, by decide, by decide⟩

/-- Witness for the amended C2 at a concrete dependency-missing workflow. -/
theorem c2_witness :
    (wfDepMissing.current_step < wfDepMissing.steps.length ∧
     are_dependencies_satisfied wfDepMissing (stepAt wfDepMissing) = false) ∧
    (execute_workflow (execute_step collabOk) wfDepMissing =
      (depFail wfDepMissing, []) ∧
    (execute_workflow (execute_step collabOk) wfDepMissing).1.status =
      OperationStatus.failed ∧
    (execute_workflow (execute_step collabOk) wfDepMissing).1.errors =
      wfDepMissing.errors ++
        ["Dependencies not satisfied for step " ++ (stepAt wfDepMissing).step_id] ∧
    mentions ("Dependencies not satisfied for step " ++
        (stepAt wfDepMissing).step_id) ((stepAt wfDepMissing).step_id) = true) :=
  ⟨⟨by decide, by decide⟩,
   c2_dependency_failure_amended (execute_step collabOk) wfDepMissing
     (by decide) (by decide)⟩

theorem list_set_getElem_self {α : Type} (l : List α) (n : Nat)
    (h : n < l.length) : l.set n l[n] = l := by
  apply List.ext_getElem
  · simp
  · intro i h1 h2
    by_cases hin : i = n
    · subst hin; simp [List.getElem_set_self]
    · rw [List.getElem_set_ne (by omega)]

theorem stepIds_bumpRetry (wf : WorkflowExecution) :
    stepIds (bumpRetry wf) = stepIds wf := by
  by_cases hlt : wf.current_step < wf.steps.length
  · have hlen : wf.current_step < (stepIds wf).length := by
      simpa [stepIds] using hlt
    show (wf.steps.set wf.current_step _).map _ = _
    rw [List.map_set, stepAt_eq hlt]
    show (stepIds wf).set wf.current_step (wf.steps[wf.current_step]).step_id = _
    have hval : (stepIds wf)[wf.current_step] =
        (wf.steps[wf.current_step]).step_id := by
      simp [stepIds]
    rw [← hval]
    exact list_set_getElem_self _ _ hlen
  · show (wf.steps.set wf.current_step _).map _ = _
    rw [List.set_eq_of_length_le (by omega)]
    rfl

theorem stepTypes_bumpRetry (wf : WorkflowExecution) :
    stepTypes (bumpRetry wf) = stepTypes wf := by
  by_cases hlt : wf.current_step < wf.steps.length
  · have hlen : wf.current_step < (stepTypes wf).length := by
      simpa [stepTypes] using hlt
    show (wf.steps.set wf.current_step _).map _ = _
    rw [List.map_set, stepAt_eq hlt]
    show (stepTypes wf).set wf.current_step (wf.steps[wf.current_step]).step_type = _
    have hval : (stepTypes wf)[wf.current_step] =
        (wf.steps[wf.current_step]).step_type := by
      simp [stepTypes]
    rw [← hval]
    exact list_set_getElem_self _ _ hlen
  · show (wf.steps.set wf.current_step _).map _ = _
    rw [List.set_eq_of_length_le (by omega)]
    rfl

theorem execWorkflowPost_failed (out : WorkflowExecution × List TraceEvent)
    (h : out.1.status = OperationStatus.failed) : execWorkflowPost out = out := by
  unfold execWorkflowPost
  rw [if_neg]
  rintro ⟨-, h2⟩
  exact h2 h



theorem remainingBudget_advanceOk_lt {wf : WorkflowExecution}
    (hlt : wf.current_step < wf.steps.length) (result : PyVal) :
    remainingBudget (advanceOk wf result) < remainingBudget wf := by
  have h1 : remainingBudget wf = stepBudget wf.steps[wf.current_step] +
      remBudget wf.steps (wf.current_step + 1) := remBudget_advance hlt
  have h2 := stepBudget_pos wf.steps[wf.current_step]
  show remBudget wf.steps (wf.current_step + 1) < remainingBudget wf
  omega

/-- While the loop runs from a `processing` state it never emits
`workflow_completed`; it ends `processing` (cursor at the end, errors
untouched, no `workflow_step_failed`) or `failed` (exactly one appended
error: either a dependency error with no `workflow_step_failed` emission,
or a terminal step error with exactly one). -/
theorem execLoopFuel_events (ex : StepExec) :
    ∀ fuel wf, remainingBudget wf < fuel →
      wf.status = OperationStatus.processing →
      countEmits "workflow_completed" (execLoopFuel ex fuel wf).2 = 0 ∧
      ((execLoopFuel ex fuel wf).1.status = OperationStatus.processing ∨
        (execLoopFuel ex fuel wf).1.status = OperationStatus.failed) ∧
      ((execLoopFuel ex fuel wf).1.status = OperationStatus.processing →
        (execLoopFuel ex fuel wf).1.errors = wf.errors ∧
        countEmits "workflow_step_failed" (execLoopFuel ex fuel wf).2 = 0 ∧
        (execLoopFuel ex fuel wf).1.steps.length ≤
          (execLoopFuel ex fuel wf).1.current_step) ∧
      ((execLoopFuel ex fuel wf).1.status = OperationStatus.failed →
        (∃ sid, (execLoopFuel ex fuel wf).1.errors =
            wf.errors ++ ["Dependencies not satisfied for step " ++ sid] ∧
          countEmits "workflow_step_failed" (execLoopFuel ex fuel wf).2 = 0) ∨
        (∃ sid e, (execLoopFuel ex fuel wf).1.errors =
            wf.errors ++ ["Step " ++ sid ++ " failed: " ++ e] ∧
          countEmits "workflow_step_failed" (execLoopFuel ex fuel wf).2 = 1)) ∧
      ((execLoopFuel ex fuel wf).1.status = OperationStatus.failed →
        (execLoopFuel ex fuel wf).1.current_step <
          (execLoopFuel ex fuel wf).1.steps.length) := by
  intro fuel
  induction fuel with
  | zero => intro wf hfuel; omega
  | succ fuel ih =>
    intro wf hfuel hst
    by_cases hlt : wf.current_step < wf.steps.length
    · by_cases hdep : are_dependencies_satisfied wf (stepAt wf) = true
      · rcases hx : ex wf (stepAt wf) with ⟨effs, r⟩
        cases r with
        | ok result =>
          rw [execLoopFuel_ok ex fuel wf hlt hdep effs result hx]
          have hbud' : remainingBudget (advanceOk wf result) < fuel := by
            have := remainingBudget_advanceOk_lt hlt result
            omega
          obtain ⟨k1, k2, k3, k4, k5⟩ := ih (advanceOk wf result) hbud' hst
          refine ⟨by simpa using k1, by simpa using k2, ?_, ?_, by exact k5⟩
          · intro hp
            obtain ⟨m1, m2, m3⟩ := k3 hp
            exact ⟨by simpa using m1, by simpa using m2, m3⟩
          · intro hf
            rcases k4 hf with ⟨sid, herr, hcnt⟩ | ⟨sid, e, herr, hcnt⟩
            · exact Or.inl ⟨sid, by simpa using herr, by simpa using hcnt⟩
            · exact Or.inr ⟨sid, e, by simpa using herr, by simpa using hcnt⟩
        | error e =>
          by_cases hretry : (stepAt wf).retry_count + 1 < (stepAt wf).max_retries
          · rw [execLoopFuel_fail_retry ex fuel wf hlt hdep effs e hx hretry]
            have hbud' : remainingBudget (bumpRetry wf) < fuel := by
              have := remainingBudget_bumpRetry_lt hlt (by omega)
              omega
            obtain ⟨k1, k2, k3, k4, k5⟩ := ih (bumpRetry wf) hbud' hst
            refine ⟨by simpa using k1, by simpa using k2, ?_, ?_, by exact k5⟩
            · intro hp
              obtain ⟨m1, m2, m3⟩ := k3 hp
              exact ⟨by simpa using m1, by simpa using m2, m3⟩
            · intro hf
              rcases k4 hf with ⟨sid, herr, hcnt⟩ | ⟨sid, e', herr, hcnt⟩
              · exact Or.inl ⟨sid, by simpa using herr, by simpa using hcnt⟩
              · exact Or.inr ⟨sid, e', by simpa using herr, by simpa using hcnt⟩
          · rw [execLoopFuel_fail_terminal ex fuel wf hlt hdep effs e hx hretry]
            refine ⟨by simp, Or.inr rfl, ?_, ?_, ?_⟩
            · intro hp
              exact absurd hp (by simp)
            · intro hf
              exact Or.inr ⟨(stepAt wf).step_id, e, by simp, by simp⟩
            · intro _
              simpa using hlt
      · rw [execLoopFuel_depfail ex fuel wf hlt
          (by simpa using Bool.eq_false_iff.mpr (fun hc => hdep hc))]
        refine ⟨by simp, Or.inr rfl, ?_, ?_, ?_⟩
        · intro hp
          exact absurd hp (by simp)
        · intro hf
          exact Or.inl ⟨(stepAt wf).step_id, by simp, by simp⟩
        · intro _
          simpa using hlt
    · rw [execLoopFuel_done ex fuel wf hlt]
      refine ⟨by simp, Or.inl hst, ?_, ?_, ?_⟩
      · intro hp
        exact ⟨rfl, by simp, by simp; omega⟩
      · intro hf
        rw [hst] at hf
        cases hf
      · intro hf
        simp at hf
        rw [hst] at hf
        cases hf



/-- Results are append-only, and every step index the cursor passed has
its step id recorded in `results`. -/
theorem execLoopFuel_results_recorded (ex : StepExec) :
    ∀ fuel wf, remainingBudget wf < fuel →
      (∀ k, k ∈ resultKeys wf → k ∈ resultKeys (execLoopFuel ex fuel wf).1) ∧
      (∀ j : Nat, wf.current_step ≤ j →
        j < (execLoopFuel ex fuel wf).1.current_step →
        ∀ sid, (stepIds wf)[j]? = some sid →
        sid ∈ resultKeys (execLoopFuel ex fuel wf).1) := by
  intro fuel
  induction fuel with
  | zero => intro wf hfuel; omega
  | succ fuel ih =>
    intro wf hfuel
    by_cases hlt : wf.current_step < wf.steps.length
    · by_cases hdep : are_dependencies_satisfied wf (stepAt wf) = true
      · rcases hx : ex wf (stepAt wf) with ⟨effs, r⟩
        cases r with
        | ok result =>
          rw [execLoopFuel_ok ex fuel wf hlt hdep effs result hx]
          have hbud' : remainingBudget (advanceOk wf result) < fuel := by
            have := remainingBudget_advanceOk_lt hlt result
            omega
          obtain ⟨k1, k2⟩ := ih (advanceOk wf result) hbud'
          have hmem : ((stepAt wf).step_id) ∈ resultKeys (advanceOk wf result) := by
            simp [resultKeys]
          constructor
          · intro k hk
            refine k1 k ?_
            simp only [resultKeys, advanceOk_results, List.map_append,
              List.mem_append]
            exact Or.inl (by simpa [resultKeys] using hk)
          · intro j hj1 hj2 sid hsid
            by_cases hjc : j = wf.current_step
            · have hplug : (stepIds wf)[j]? = some ((stepAt wf).step_id) := by
                subst hjc
                show (wf.steps.map WorkflowStep.step_id)[wf.current_step]? = _
                rw [List.getElem?_map, List.getElem?_eq_getElem hlt,
                  stepAt_eq hlt]
                rfl
              have hsid' : sid = (stepAt wf).step_id := by
                rw [hplug] at hsid
                exact (Option.some_inj.mp hsid).symm
              rw [hsid']
              exact k1 _ hmem
            · refine k2 j (by simp; omega) (by simpa using hj2) sid ?_
              simpa [stepIds] using hsid
        | error e =>
          by_cases hretry : (stepAt wf).retry_count + 1 < (stepAt wf).max_retries
          · rw [execLoopFuel_fail_retry ex fuel wf hlt hdep effs e hx hretry]
            have hbud' : remainingBudget (bumpRetry wf) < fuel := by
              have := remainingBudget_bumpRetry_lt hlt (by omega)
              omega
            obtain ⟨k1, k2⟩ := ih (bumpRetry wf) hbud'
            constructor
            · intro k hk
              exact k1 k (by simpa [resultKeys] using hk)
            · intro j hj1 hj2 sid hsid
              refine k2 j (by simpa using hj1) (by simpa using hj2) sid ?_
              rw [stepIds_bumpRetry]
              exact hsid
          · rw [execLoopFuel_fail_terminal ex fuel wf hlt hdep effs e hx hretry]
            refine ⟨fun k hk => by simpa [resultKeys] using hk, ?_⟩
            intro j hj1 hj2 sid hsid
            simp only [terminalFail_current] at hj2
            omega
      · rw [execLoopFuel_depfail ex fuel wf hlt
          (by simpa using Bool.eq_false_iff.mpr (fun hc => hdep hc))]
        refine ⟨fun k hk => by simpa [resultKeys] using hk, ?_⟩
        intro j hj1 hj2 sid hsid
        simp only [depFail_current] at hj2
        omega
    · rw [execLoopFuel_done ex fuel wf hlt]
      exact ⟨fun k hk => hk, fun j hj1 hj2 sid hsid => by simp at hj2; omega⟩



/-- The loop never adds, removes or renames steps. -/
theorem execLoopFuel_stepIds (ex : StepExec) :
    ∀ fuel wf, remainingBudget wf < fuel →
      stepIds (execLoopFuel ex fuel wf).1 = stepIds wf := by
  intro fuel
  induction fuel with
  | zero => intro wf hfuel; omega
  | succ fuel ih =>
    intro wf hfuel
    by_cases hlt : wf.current_step < wf.steps.length
    · by_cases hdep : are_dependencies_satisfied wf (stepAt wf) = true
      · rcases hx : ex wf (stepAt wf) with ⟨effs, r⟩
        cases r with
        | ok result =>
          rw [execLoopFuel_ok ex fuel wf hlt hdep effs result hx]
          have hbud' : remainingBudget (advanceOk wf result) < fuel := by
            have := remainingBudget_advanceOk_lt hlt result
            omega
          exact ih (advanceOk wf result) hbud'
        | error e =>
          by_cases hretry : (stepAt wf).retry_count + 1 < (stepAt wf).max_retries
          · rw [execLoopFuel_fail_retry ex fuel wf hlt hdep effs e hx hretry]
            have hbud' : remainingBudget (bumpRetry wf) < fuel := by
              have := remainingBudget_bumpRetry_lt hlt (by omega)
              omega
            rw [show ((execLoopFuel ex fuel (bumpRetry wf)).1,
                TraceEvent.execCall wf.current_step (stepAt wf).step_id ::
                  (effs.map TraceEvent.eff ++
                   (TraceEvent.sleep (2 ^ ((stepAt wf).retry_count + 1)) ::
                    (execLoopFuel ex fuel (bumpRetry wf)).2))).1 =
                (execLoopFuel ex fuel (bumpRetry wf)).1 from rfl]
            rw [ih (bumpRetry wf) hbud', stepIds_bumpRetry]
          · rw [execLoopFuel_fail_terminal ex fuel wf hlt hdep effs e hx hretry]
            show stepIds (bumpRetry wf) = stepIds wf
            exact stepIds_bumpRetry wf
      · rw [execLoopFuel_depfail ex fuel wf hlt
          (by simpa using Bool.eq_false_iff.mpr (fun hc => hdep hc))]
        rfl
    · rw [execLoopFuel_done ex fuel wf hlt]

/-- **C3 (amended).** Per execution (started as `handle_request` starts
them: status `processing`, no prior errors, cursor at 0):
`workflow_completed` is emitted exactly once when the run ends
`completed`, as the last event, after every step's result is recorded,
and never when the run ends `failed`; `workflow_step_failed` is emitted
exactly once when the run fails by exhausting a step's retries, but a run
that fails the dependency check emits no `workflow_step_failed` at all
(the two failure modes are distinguished by the recorded error string). -/
theorem c3_lifecycle_events_amended (ex : StepExec) (wf : WorkflowExecution)
    (hst : wf.status = OperationStatus.processing)
    (herr0 : wf.errors = [])
    (hc0 : wf.current_step = 0) :
    ((execute_workflow ex wf).1.status = OperationStatus.completed ∨
     (execute_workflow ex wf).1.status = OperationStatus.failed) ∧
    ((execute_workflow ex wf).1.status = OperationStatus.completed →
      countEmits "workflow_completed" (execute_workflow ex wf).2 = 1 ∧
      countEmits "workflow_step_failed" (execute_workflow ex wf).2 = 0 ∧
      (∀ sid, sid ∈ stepIds wf →
        sid ∈ resultKeys (execute_workflow ex wf).1) ∧
      ((execute_workflow ex wf).2.getLast?.map
        (evIsEmitOf "workflow_completed")) = some true) ∧
    ((execute_workflow ex wf).1.status = OperationStatus.failed →
      countEmits "workflow_completed" (execute_workflow ex wf).2 = 0 ∧
      ((∃ sid, (execute_workflow ex wf).1.errors =
          ["Dependencies not satisfied for step " ++ sid] ∧
        countEmits "workflow_step_failed" (execute_workflow ex wf).2 = 0) ∨
       (∃ sid e, (execute_workflow ex wf).1.errors =
          ["Step " ++ sid ++ " failed: " ++ e] ∧
        countEmits "workflow_step_failed" (execute_workflow ex wf).2 = 1))) := by
  obtain ⟨k1, k2, k3, k4, k5⟩ :=
    execLoopFuel_events ex (remainingBudget wf + 1) wf (by omega) hst
  obtain ⟨r1, r2⟩ :=
    execLoopFuel_results_recorded ex (remainingBudget wf + 1) wf (by omega)
  have hids := execLoopFuel_stepIds ex (remainingBudget wf + 1) wf (by omega)
  simp only [execute_workflow]
  rcases k2 with hp | hf
  · -- the loop ran all steps: the epilogue marks completed and emits
    obtain ⟨m1, m2, m3⟩ := k3 hp
    have hpost := execWorkflowPost_completed
      (execLoopFuel ex (remainingBudget wf + 1) wf)
      (by simp only [WorkflowExecution.is_completed]; simpa using m3)
      (by rw [hp]; decide)
    have h2 : (execWorkflowPost
        (execLoopFuel ex (remainingBudget wf + 1) wf)).2 =
        (execLoopFuel ex (remainingBudget wf + 1) wf).2 ++
          [TraceEvent.emitEvent "workflow_completed"
             (workflowCompletedPayload
               (execLoopFuel ex (remainingBudget wf + 1) wf).1)] := by
      rw [hpost]
    have h1s : (execWorkflowPost
        (execLoopFuel ex (remainingBudget wf + 1) wf)).1.status =
        OperationStatus.completed := by rw [hpost]
    have h1r : resultKeys (execWorkflowPost
        (execLoopFuel ex (remainingBudget wf + 1) wf)).1 =
        resultKeys (execLoopFuel ex (remainingBudget wf + 1) wf).1 := by
      rw [hpost]
      rfl
    refine ⟨Or.inl h1s, ?_, ?_⟩
    · intro _
      refine ⟨?_, ?_, ?_, ?_⟩
      · rw [h2]
        simp [k1]
      · rw [h2]
        simp [m2]
      · intro sid hsid
        rw [h1r]
        obtain ⟨n, hn⟩ := List.mem_iff_get.mp hsid
        have hn' : (stepIds wf)[(n : Nat)]? = some sid := by
          rw [List.getElem?_eq_getElem n.isLt]
          simp [← hn, List.get_eq_getElem]
        have hnlen : (n : Nat) < wf.steps.length := by
          have := n.isLt
          simpa [stepIds] using this
        have hncur : (n : Nat) <
            (execLoopFuel ex (remainingBudget wf + 1) wf).1.current_step := by
          have hlenpres :
              (execLoopFuel ex (remainingBudget wf + 1) wf).1.steps.length =
                wf.steps.length := by
            have := congrArg List.length hids
            simpa [stepIds] using this
          omega
        exact r2 n (by omega) hncur sid hn'
      · rw [h2, List.getLast?_concat]
        simp [evIsEmitOf]
    · intro hcon
      rw [h1s] at hcon
      cases hcon
  · -- the loop failed: the epilogue is the identity
    have hpost := execWorkflowPost_failed
      (execLoopFuel ex (remainingBudget wf + 1) wf) hf
    rw [hpost]
    refine ⟨Or.inr hf, ?_, ?_⟩
    · intro hcon
      rw [hf] at hcon
      cases hcon
    · intro _
      refine ⟨k1, ?_⟩
      rcases k4 hf with ⟨sid, herr, hcnt⟩ | ⟨sid, e, herr, hcnt⟩
      · exact Or.inl ⟨sid, by rw [herr, herr0]; rfl, hcnt⟩
      · exact Or.inr ⟨sid, e, by rw [herr, herr0]; rfl, hcnt⟩

/-- **C3 counterexample.** An execution that fails the dependency check
ends with status failed yet emits zero `workflow_step_failed` events,
refuting "workflow_step_failed is emitted exactly once for every
execution that ends with status failed". -/
theorem c3_counterexample :
    (execute_workflow (execute_step collabOk) wfDepMissing).1.status =
      OperationStatus.failed ∧
    countEmits "workflow_step_failed"
      (execute_workflow (execute_step collabOk) wfDepMissing).2 = 0 ∧
    countEmits "workflow_completed"
      (execute_workflow (execute_step collabOk) wfDepMissing).2 = 0 :=
  ⟨by decide, by decide, by decide⟩

/-- Witness for the amended C3 on a concrete successful github workflow. -/
theorem c3_witness :
    ((newWorkflow reqA "github" "e1" "r1").status =
        OperationStatus.processing ∧
     (newWorkflow reqA "github" "e1" "r1").errors = [] ∧
     (newWorkflow reqA "github" "e1" "r1").current_step = 0) ∧
    (((execute_workflow (execute_step collabOk)
        (newWorkflow reqA "github" "e1" "r1")).1.status =
          OperationStatus.completed ∨
      (execute_workflow (execute_step collabOk)
        (newWorkflow reqA "github" "e1" "r1")).1.status =
          OperationStatus.failed) ∧
     ((execute_workflow (execute_step collabOk)
        (newWorkflow reqA "github" "e1" "r1")).1.status =
          OperationStatus.completed →
       countEmits "workflow_completed"
         (execute_workflow (execute_step collabOk)
           (newWorkflow reqA "github" "e1" "r1")).2 = 1 ∧
       countEmits "workflow_step_failed"
         (execute_workflow (execute_step collabOk)
           (newWorkflow reqA "github" "e1" "r1")).2 = 0 ∧
       (∀ sid, sid ∈ stepIds (newWorkflow reqA "github" "e1" "r1") →
         sid ∈ resultKeys (execute_workflow (execute_step collabOk)
           (newWorkflow reqA "github" "e1" "r1")).1) ∧
       ((execute_workflow (execute_step collabOk)
           (newWorkflow reqA "github" "e1" "r1")).2.getLast?.map
         (evIsEmitOf "workflow_completed")) = some true) ∧
     ((execute_workflow (execute_step collabOk)
        (newWorkflow reqA "github" "e1" "r1")).1.status =
          OperationStatus.failed →
       countEmits "workflow_completed"
         (execute_workflow (execute_step collabOk)
           (newWorkflow reqA "github" "e1" "r1")).2 = 0 ∧
       ((∃ sid, (execute_workflow (execute_step collabOk)
            (newWorkflow reqA "github" "e1" "r1")).1.errors =
            ["Dependencies not satisfied for step " ++ sid] ∧
         countEmits "workflow_step_failed"
           (execute_workflow (execute_step collabOk)
             (newWorkflow reqA "github" "e1" "r1")).2 = 0) ∨
        (∃ sid e, (execute_workflow (execute_step collabOk)
            (newWorkflow reqA "github" "e1" "r1")).1.errors =
            ["Step " ++ sid ++ " failed: " ++ e] ∧
         countEmits "workflow_step_failed"
           (execute_workflow (execute_step collabOk)
             (newWorkflow reqA "github" "e1" "r1")).2 = 1)))) :=
  ⟨⟨rfl, rfl, rfl⟩,
   c3_lifecycle_events_amended (execute_step collabOk)
     (newWorkflow reqA "github" "e1" "r1") rfl rfl rfl⟩

theorem chain_le_of_cons {x y : Nat} {l : List Nat} (hxy : y ≤ x)
    (h : List.Chain' (· ≤ ·) (x :: l)) : List.Chain' (· ≤ ·) (y :: l) := by
  cases l with
  | nil => simp
  | cons a l' =>
    rw [List.chain'_cons] at h ⊢
    exact ⟨le_trans hxy h.1, h.2⟩

/-- The cursor positions at which the loop invokes executors never
decrease, and the final cursor is at least every invoked position. -/
theorem execLoopFuel_monotone (ex : StepExec) :
    ∀ fuel wf, remainingBudget wf < fuel →
      List.Chain' (· ≤ ·) (wf.current_step ::
        (execIndices (execLoopFuel ex fuel wf).2 ++
         [(execLoopFuel ex fuel wf).1.current_step])) := by
  intro fuel
  induction fuel with
  | zero => intro wf hfuel; omega
  | succ fuel ih =>
    intro wf hfuel
    by_cases hlt : wf.current_step < wf.steps.length
    · by_cases hdep : are_dependencies_satisfied wf (stepAt wf) = true
      · rcases hx : ex wf (stepAt wf) with ⟨effs, r⟩
        cases r with
        | ok result =>
          rw [execLoopFuel_ok ex fuel wf hlt hdep effs result hx]
          have hbud' : remainingBudget (advanceOk wf result) < fuel := by
            have := remainingBudget_advanceOk_lt hlt result
            omega
          have key := ih (advanceOk wf result) hbud'
          simp only [advanceOk_current] at key
          have key' := chain_le_of_cons (Nat.le_succ wf.current_step) key
          simp only [execIndices_cons_call, execIndices_append,
            execIndices_map_eff, List.nil_append, execIndices_cons_emit,
            List.cons_append]
          rw [List.chain'_cons]
          refine ⟨le_refl _, ?_⟩
          exact key'
        | error e =>
          by_cases hretry : (stepAt wf).retry_count + 1 <
              (stepAt wf).max_retries
          · rw [execLoopFuel_fail_retry ex fuel wf hlt hdep effs e hx hretry]
            have hbud' : remainingBudget (bumpRetry wf) < fuel := by
              have := remainingBudget_bumpRetry_lt hlt (by omega)
              omega
            have key := ih (bumpRetry wf) hbud'
            simp only [bumpRetry_current] at key
            simp only [execIndices_cons_call, execIndices_append,
              execIndices_map_eff, List.nil_append, execIndices_cons_sleep,
              List.cons_append]
            rw [List.chain'_cons]
            exact ⟨le_refl _, key⟩
          · rw [execLoopFuel_fail_terminal ex fuel wf hlt hdep effs e hx hretry]
            simp [List.chain'_cons]
      · rw [execLoopFuel_depfail ex fuel wf hlt
          (by simpa using Bool.eq_false_iff.mpr (fun hc => hdep hc))]
        simp
    · rw [execLoopFuel_done ex fuel wf hlt]
      simp

theorem execWorkflowPost_current (out : WorkflowExecution × List TraceEvent) :
    (execWorkflowPost out).1.current_step = out.1.current_step := by
  unfold execWorkflowPost
  split
  · rfl
  · rfl

theorem execWorkflowPost_execIndices (out : WorkflowExecution × List TraceEvent) :
    execIndices (execWorkflowPost out).2 = execIndices out.2 := by
  unfold execWorkflowPost
  split
  · simp
  · rfl

/-- The whole of `execute_workflow` only ever moves the cursor forward. -/
theorem execute_workflow_monotone (ex : StepExec) (wf : WorkflowExecution) :
    List.Chain' (· ≤ ·) (wf.current_step ::
      (execIndices (execute_workflow ex wf).2 ++
       [(execute_workflow ex wf).1.current_step])) := by
  show List.Chain' (· ≤ ·) (wf.current_step ::
    (execIndices (execWorkflowPost (execLoopFuel ex (remainingBudget wf + 1) wf)).2 ++
     [(execWorkflowPost (execLoopFuel ex (remainingBudget wf + 1) wf)).1.current_step]))
  rw [execWorkflowPost_execIndices, execWorkflowPost_current]
  exact execLoopFuel_monotone ex (remainingBudget wf + 1) wf (by omega)

/-- A `processing` workflow always finishes `completed` or `failed`. -/
theorem execute_workflow_terminal_status (ex : StepExec)
    (wf : WorkflowExecution)
    (hst : wf.status = OperationStatus.processing) :
    (execute_workflow ex wf).1.status = OperationStatus.completed ∨
    (execute_workflow ex wf).1.status = OperationStatus.failed := by
  obtain ⟨k1, k2, k3, k4, k5⟩ :=
    execLoopFuel_events ex (remainingBudget wf + 1) wf (by omega) hst
  simp only [execute_workflow]
  rcases k2 with hp | hf
  · obtain ⟨m1, m2, m3⟩ := k3 hp
    have hpost := execWorkflowPost_completed
      (execLoopFuel ex (remainingBudget wf + 1) wf)
      (by simp only [WorkflowExecution.is_completed]; simpa using m3)
      (by rw [hp]; decide)
    left
    rw [hpost]
  · right
    rw [execWorkflowPost_failed _ hf]
    exact hf

theorem lookupStr_filter_ne {α : Type} (l : List (String × α)) (k : String) :
    lookupStr (l.filter (fun kv => !(kv.1 == k))) k = Option.none := by
  induction l with
  | nil => rfl
  | cons kv rest ih =>
    obtain ⟨a, b⟩ := kv
    rw [List.filter_cons]
    by_cases h : a = k
    · rw [if_neg (by simp [h])]
      exact ih
    · rw [if_pos (by simp [h])]
      show lookupStr ((a, b) :: _) k = _
      simp only [lookupStr]
      rw [if_neg h]
      exact ih

/-- **C9.** Per execution handled by `handle_request`: the executor is
invoked at never-decreasing cursor positions and the final cursor bounds
them all (the cursor only increases); the workflow starts `processing`
and ends `completed` or `failed`; and once terminal, the execution is
deleted from the active set, so a status query for its id returns
`none`. -/
theorem c9_cursor_status_retirement (collab : Collaborators)
    (active : ActiveMap) (request : SlackRequest)
    (workflow_type execution_id request_id : String) :
    List.Chain' (· ≤ ·) (0 ::
      (execIndices (handle_request collab active request workflow_type
          execution_id request_id).trace ++
       [(handle_request collab active request workflow_type execution_id
          request_id).final.current_step])) ∧
    (newWorkflow request workflow_type execution_id request_id).status =
      OperationStatus.processing ∧
    ((handle_request collab active request workflow_type execution_id
        request_id).final.status = OperationStatus.completed ∨
     (handle_request collab active request workflow_type execution_id
        request_id).final.status = OperationStatus.failed) ∧
    get_workflow_status (handle_request collab active request workflow_type
      execution_id request_id).active execution_id = Option.none := by
  refine ⟨?_, rfl, ?_, ?_⟩
  · have := execute_workflow_monotone (execute_step collab)
      (newWorkflow request workflow_type execution_id request_id)
    simpa [newWorkflow] using this
  · exact execute_workflow_terminal_status (execute_step collab)
      (newWorkflow request workflow_type execution_id request_id) rfl
  · simp only [get_workflow_status, handle_request]
    rw [lookupStr_filter_ne]
    rfl

theorem execute_nlp_step_fn (collab : Collaborators) (wf : WorkflowExecution)
    (s : WorkflowStep) :
    countChannelPublishes "final_notifications"
      ((execute_nlp_step collab wf s).1.map TraceEvent.eff) = 0 := by
  unfold execute_nlp_step
  cases hpt : paramGet s "text" with
  | error e => simp [hpt]
  | ok t =>
    cases hn : collab.process_natural_language t with
    | error e => simp [hpt, hn, statusUpdateEvent]
    | ok p => simp [hpt, hn, statusUpdateEvent]

theorem execute_validation_step_fn (wf : WorkflowExecution)
    (s : WorkflowStep) :
    countChannelPublishes "final_notifications"
      ((execute_validation_step wf s).1.map TraceEvent.eff) = 0 := by
  unfold execute_validation_step
  cases hu : paramGet s "user_id" with
  | error e => simp [hu]
  | ok uid =>
    cases he : pyGet ((lookupStr wf.results "nlp_processing").getD
        (PyVal.dict [])) "entities" (PyVal.dict []) with
    | error e => simp [hu, he]
    | ok entities =>
      cases hr : pyGet entities "repository" PyVal.pynone with
      | error e => simp [hu, he, hr]
      | ok repo0 => simp [hu, he, hr]

theorem execute_github_step_fn (collab : Collaborators)
    (wf : WorkflowExecution) (s : WorkflowStep) :
    countChannelPublishes "final_notifications"
      ((execute_github_step collab wf s).1.map TraceEvent.eff) = 0 := by
  unfold execute_github_step
  cases hpr : pyGetItem ((lookupStr wf.results "nlp_processing").getD
      (PyVal.dict [])) "processed_request" with
  | error e => simp [hpr, statusUpdateEvent]
  | ok prVal =>
    cases prVal with
    | procReq p =>
      cases hv : (if pyTruthy ((lookupStr wf.results
          "validate_permissions").getD (PyVal.dict [])) then
            pyGet ((lookupStr wf.results "validate_permissions").getD
              (PyVal.dict [])) "repository" PyVal.pynone
          else Except.ok PyVal.pynone) with
      | error e => simp [hpr, hv, statusUpdateEvent]
      | ok repoVal =>
        cases hg : collab.execute_github_operation
            (if pyTruthy repoVal then
              { GitHubOperation.from_processed_request p wf.user_id with
                  repository := some repoVal }
            else GitHubOperation.from_processed_request p wf.user_id) with
        | error e => simp [hpr, hv, hg, statusUpdateEvent]
        | ok result => simp [hpr, hv, hg, statusUpdateEvent]
    | str s1 => simp [hpr, statusUpdateEvent]
    | int n => simp [hpr, statusUpdateEvent]
    | bool b => simp [hpr, statusUpdateEvent]
    | pynone => simp [hpr, statusUpdateEvent]
    | dict fields => simp [hpr, statusUpdateEvent]
    | list items => simp [hpr, statusUpdateEvent]

theorem execute_notification_step_fn_ok (wf : WorkflowExecution)
    (s : WorkflowStep) (effs : List EffEvent) (v : PyVal)
    (hx : execute_notification_step wf s = (effs, Except.ok v)) :
    countChannelPublishes "final_notifications"
      (effs.map TraceEvent.eff) = 1 := by
  unfold execute_notification_step at hx
  cases hc : paramGet s "channel_id" with
  | error e => rw [hc] at hx; simp at hx
  | ok channelVal =>
    rw [hc] at hx
    cases hu : paramGet s "user_id" with
    | error e => rw [hu] at hx; simp at hx
    | ok userVal =>
      rw [hu] at hx
      cases hg : lookupStr wf.results "execute_github_operation" with
      | none =>
        rw [hg] at hx
        simp only [Prod.mk.injEq] at hx
        obtain ⟨heffs, -⟩ := hx
        rw [← heffs]
        simp
      | some github_result =>
        rw [hg] at hx
        cases github_result with
        | dict fields =>
          simp only [Prod.mk.injEq] at hx
          obtain ⟨heffs, -⟩ := hx
          rw [← heffs]
          simp
        | str s1 => simp at hx
        | int n => simp at hx
        | bool b => simp at hx
        | pynone => simp at hx
        | list items => simp at hx
        | procReq p => simp at hx

theorem execute_notification_step_fn_error (wf : WorkflowExecution)
    (s : WorkflowStep) (effs : List EffEvent) (e : String)
    (hx : execute_notification_step wf s = (effs, Except.error e)) :
    countChannelPublishes "final_notifications"
      (effs.map TraceEvent.eff) = 0 := by
  unfold execute_notification_step at hx
  cases hc : paramGet s "channel_id" with
  | error e1 =>
    rw [hc] at hx
    simp only [Prod.mk.injEq] at hx
    obtain ⟨heffs, -⟩ := hx
    rw [← heffs]
    simp
  | ok channelVal =>
    rw [hc] at hx
    cases hu : paramGet s "user_id" with
    | error e1 =>
      rw [hu] at hx
      simp only [Prod.mk.injEq] at hx
      obtain ⟨heffs, -⟩ := hx
      rw [← heffs]
      simp
    | ok userVal =>
      rw [hu] at hx
      cases hg : lookupStr wf.results "execute_github_operation" with
      | none =>
        rw [hg] at hx
        simp at hx
      | some github_result =>
        rw [hg] at hx
        cases github_result with
        | dict fields => simp at hx
        | str s1 =>
          simp only [Prod.mk.injEq] at hx
          obtain ⟨heffs, -⟩ := hx
          rw [← heffs]
          simp
        | int n =>
          simp only [Prod.mk.injEq] at hx
          obtain ⟨heffs, -⟩ := hx
          rw [← heffs]
          simp
        | bool b =>
          simp only [Prod.mk.injEq] at hx
          obtain ⟨heffs, -⟩ := hx
          rw [← heffs]
          simp
        | pynone =>
          simp only [Prod.mk.injEq] at hx
          obtain ⟨heffs, -⟩ := hx
          rw [← heffs]
          simp
        | list items =>
          simp only [Prod.mk.injEq] at hx
          obtain ⟨heffs, -⟩ := hx
          rw [← heffs]
          simp
        | procReq p =>
          simp only [Prod.mk.injEq] at hx
          obtain ⟨heffs, -⟩ := hx
          rw [← heffs]
          simp



theorem execute_step_fn_ok (collab : Collaborators) (wf : WorkflowExecution)
    (s : WorkflowStep) (effs : List EffEvent) (v : PyVal)
    (hx : execute_step collab wf s = (effs, Except.ok v)) :
    countChannelPublishes "final_notifications" (effs.map TraceEvent.eff) =
      if s.step_type = "notification" then 1 else 0 := by
  unfold execute_step at hx
  split_ifs at hx with h1 h2 h3 h4 h5 h6
  · rw [if_neg (show ¬ s.step_type = "notification" by rw [h1]; decide)]
    have h0 := execute_nlp_step_fn collab wf s
    rw [hx] at h0
    exact h0
  · rw [if_neg (show ¬ s.step_type = "notification" by rw [h2]; decide)]
    have h0 := execute_validation_step_fn wf s
    rw [hx] at h0
    exact h0
  · rw [if_neg (show ¬ s.step_type = "notification" by rw [h3]; decide)]
    have h0 := execute_github_step_fn collab wf s
    rw [hx] at h0
    exact h0
  · rw [if_neg (show ¬ s.step_type = "notification" by rw [h4]; decide)]
    simp only [execute_code_generation_step, Prod.mk.injEq] at hx
    obtain ⟨heffs, -⟩ := hx
    rw [← heffs]
    simp [statusUpdateEvent]
  · rw [if_neg (show ¬ s.step_type = "notification" by rw [h5]; decide)]
    simp only [execute_pr_analysis_step, Prod.mk.injEq] at hx
    obtain ⟨heffs, -⟩ := hx
    rw [← heffs]
    simp
  · rw [if_pos h6]
    exact execute_notification_step_fn_ok wf s effs v hx
  · simp at hx

theorem execute_step_fn_error (collab : Collaborators)
    (wf : WorkflowExecution) (s : WorkflowStep) (effs : List EffEvent)
    (e : String)
    (hx : execute_step collab wf s = (effs, Except.error e)) :
    countChannelPublishes "final_notifications" (effs.map TraceEvent.eff) = 0 := by
  unfold execute_step at hx
  split_ifs at hx with h1 h2 h3 h4 h5 h6
  · have h0 := execute_nlp_step_fn collab wf s
    rw [hx] at h0
    exact h0
  · have h0 := execute_validation_step_fn wf s
    rw [hx] at h0
    exact h0
  · have h0 := execute_github_step_fn collab wf s
    rw [hx] at h0
    exact h0
  · simp only [execute_code_generation_step, Prod.mk.injEq] at hx
    obtain ⟨heffs, -⟩ := hx
    rw [← heffs]
    simp [statusUpdateEvent]
  · simp only [execute_pr_analysis_step, Prod.mk.injEq] at hx
    obtain ⟨heffs, -⟩ := hx
    rw [← heffs]
    simp
  · exact execute_notification_step_fn_error wf s effs e hx
  · simp only [Prod.mk.injEq] at hx
    obtain ⟨heffs, -⟩ := hx
    rw [← heffs]
    simp

theorem execLoopFuel_current_mono (ex : StepExec) :
    ∀ fuel wf, remainingBudget wf < fuel →
      wf.current_step ≤ (execLoopFuel ex fuel wf).1.current_step := by
  intro fuel
  induction fuel with
  | zero => intro wf h; omega
  | succ fuel ih =>
    intro wf hfuel
    by_cases hlt : wf.current_step < wf.steps.length
    · by_cases hdep : are_dependencies_satisfied wf (stepAt wf) = true
      · rcases hx : ex wf (stepAt wf) with ⟨effs, r⟩
        cases r with
        | ok result =>
          rw [execLoopFuel_ok ex fuel wf hlt hdep effs result hx]
          have hbud' : remainingBudget (advanceOk wf result) < fuel := by
            have := remainingBudget_advanceOk_lt hlt result
            omega
          have := ih (advanceOk wf result) hbud'
          simp only [advanceOk_current] at this
          show wf.current_step ≤ (execLoopFuel ex fuel (advanceOk wf result)).1.current_step
          omega
        | error e =>
          by_cases hretry : (stepAt wf).retry_count + 1 < (stepAt wf).max_retries
          · rw [execLoopFuel_fail_retry ex fuel wf hlt hdep effs e hx hretry]
            have hbud' : remainingBudget (bumpRetry wf) < fuel := by
              have := remainingBudget_bumpRetry_lt hlt (by omega)
              omega
            have := ih (bumpRetry wf) hbud'
            simp only [bumpRetry_current] at this
            show wf.current_step ≤ (execLoopFuel ex fuel (bumpRetry wf)).1.current_step
            omega
          · rw [execLoopFuel_fail_terminal ex fuel wf hlt hdep effs e hx hretry]
            simp
      · rw [execLoopFuel_depfail ex fuel wf hlt
          (by simpa using Bool.eq_false_iff.mpr (fun hc => hdep hc))]
        simp
    · rw [execLoopFuel_done ex fuel wf hlt]

theorem count_take_drop_cons (types : List String) (a b : Nat)
    (hab : a < b) (halen : a < types.length) :
    (types.take b).drop a = types[a] :: ((types.take b).drop (a + 1)) := by
  rw [List.drop_eq_getElem_cons (l := types.take b) (by simp; omega)]
  congr 1
  simp [List.getElem_take]



/-- The number of `final_notifications` publishes during the loop equals
the number of notification-typed steps the cursor completed. -/
theorem execLoopFuel_final_notifs (collab : Collaborators) :
    ∀ fuel wf, remainingBudget wf < fuel →
      countChannelPublishes "final_notifications"
          (execLoopFuel (execute_step collab) fuel wf).2 =
        (((stepTypes wf).take
            (execLoopFuel (execute_step collab) fuel wf).1.current_step).drop
          wf.current_step).count "notification" := by
  intro fuel
  induction fuel with
  | zero => intro wf h; omega
  | succ fuel ih =>
    intro wf hfuel
    by_cases hlt : wf.current_step < wf.steps.length
    · by_cases hdep : are_dependencies_satisfied wf (stepAt wf) = true
      · rcases hx : execute_step collab wf (stepAt wf) with ⟨effs, r⟩
        cases r with
        | ok result =>
          rw [execLoopFuel_ok _ fuel wf hlt hdep effs result hx]
          have hbud' : remainingBudget (advanceOk wf result) < fuel := by
            have := remainingBudget_advanceOk_lt hlt result
            omega
          have key := ih (advanceOk wf result) hbud'
          have heffs := execute_step_fn_ok collab wf (stepAt wf) effs result hx
          have hmono := execLoopFuel_current_mono (execute_step collab) fuel
            (advanceOk wf result) hbud'
          simp only [advanceOk_current] at hmono
          have htyA : stepTypes (advanceOk wf result) = stepTypes wf := rfl
          rw [htyA] at key
          have htylen : wf.current_step < (stepTypes wf).length := by
            simpa [stepTypes] using hlt
          have htyc : (stepTypes wf)[wf.current_step] = (stepAt wf).step_type := by
            rw [stepAt_eq hlt]
            simp [stepTypes]
          have hseg := count_take_drop_cons (stepTypes wf) wf.current_step
            (execLoopFuel (execute_step collab) fuel (advanceOk wf result)).1.current_step
            (by omega) htylen
          show countChannelPublishes "final_notifications"
              (TraceEvent.execCall wf.current_step (stepAt wf).step_id ::
                (effs.map TraceEvent.eff ++
                 (TraceEvent.emitEvent "workflow_step_completed" _ ::
                  (execLoopFuel (execute_step collab) fuel
                    (advanceOk wf result)).2))) = _
          simp only [countChannelPublishes_cons_call,
            countChannelPublishes_append, countChannelPublishes_cons_emit]
          rw [heffs, key, hseg, htyc, List.count_cons]
          by_cases hnt : (stepAt wf).step_type = "notification"
          · rw [if_pos hnt, if_pos (by simp [hnt])]
            simp only [advanceOk_current]
            omega
          · rw [if_neg hnt, if_neg (by simp [hnt])]
            simp only [advanceOk_current]
            omega
        | error e =>
          by_cases hretry : (stepAt wf).retry_count + 1 < (stepAt wf).max_retries
          · rw [execLoopFuel_fail_retry _ fuel wf hlt hdep effs e hx hretry]
            have hbud' : remainingBudget (bumpRetry wf) < fuel := by
              have := remainingBudget_bumpRetry_lt hlt (by omega)
              omega
            have key := ih (bumpRetry wf) hbud'
            have heffs := execute_step_fn_error collab wf (stepAt wf) effs e hx
            rw [stepTypes_bumpRetry] at key
            show countChannelPublishes "final_notifications"
                (TraceEvent.execCall wf.current_step (stepAt wf).step_id ::
                  (effs.map TraceEvent.eff ++
                   (TraceEvent.sleep _ ::
                    (execLoopFuel (execute_step collab) fuel (bumpRetry wf)).2))) = _
            simp only [countChannelPublishes_cons_call,
              countChannelPublishes_append, countChannelPublishes_cons_sleep]
            rw [heffs, key]
            simp [bumpRetry_current]
          · rw [execLoopFuel_fail_terminal _ fuel wf hlt hdep effs e hx hretry]
            have heffs := execute_step_fn_error collab wf (stepAt wf) effs e hx
            show countChannelPublishes "final_notifications"
                (TraceEvent.execCall wf.current_step (stepAt wf).step_id ::
                  (effs.map TraceEvent.eff ++
                   [TraceEvent.emitEvent "workflow_step_failed" _])) = _
            simp only [countChannelPublishes_cons_call,
              countChannelPublishes_append, countChannelPublishes_cons_emit,
              countChannelPublishes_nil]
            rw [heffs]
            have : (((stepTypes wf).take
                (terminalFail wf e).current_step).drop wf.current_step) = [] := by
              rw [terminalFail_current]
              apply List.drop_eq_nil_of_le
              simp
            rw [this]
            rfl
      · rw [execLoopFuel_depfail _ fuel wf hlt
          (by simpa using Bool.eq_false_iff.mpr (fun hc => hdep hc))]
        have : (((stepTypes wf).take
            (depFail wf).current_step).drop wf.current_step) = [] := by
          rw [depFail_current]
          apply List.drop_eq_nil_of_le
          simp
        rw [this]
        rfl
    · rw [execLoopFuel_done _ fuel wf hlt]
      have : (((stepTypes wf).take wf.current_step).drop wf.current_step) = [] := by
        apply List.drop_eq_nil_of_le
        simp
      rw [this]
      rfl



/-- Helper: any workflow whose step-type list contains exactly one
`notification` tag, located at the last position (so every proper prefix
has none), publishes exactly one final notification when it completes and
none when it fails. -/
theorem final_notifs_of_single_notification (collab : Collaborators)
    (wf : WorkflowExecution)
    (hst : wf.status = OperationStatus.processing)
    (herr : wf.errors = [])
    (hc0 : wf.current_step = 0)
    (htn : (stepTypes wf).count "notification" = 1)
    (htake : ∀ k, k < (stepTypes wf).length →
      ((stepTypes wf).take k).count "notification" = 0) :
    ((execute_workflow (execute_step collab) wf).1.status =
        OperationStatus.completed →
      countChannelPublishes "final_notifications"
        (execute_workflow (execute_step collab) wf).2 = 1) ∧
    ((execute_workflow (execute_step collab) wf).1.status =
        OperationStatus.failed →
      countChannelPublishes "final_notifications"
        (execute_workflow (execute_step collab) wf).2 = 0 ∧
      (execute_workflow (execute_step collab) wf).1.errors ≠ []) := by
  obtain ⟨k1, k2, k3, k4, k5⟩ := execLoopFuel_events (execute_step collab)
    (remainingBudget wf + 1) wf (by omega) hst
  have hn := execLoopFuel_final_notifs collab (remainingBudget wf + 1) wf
    (by omega)
  have hids := execLoopFuel_stepIds (execute_step collab)
    (remainingBudget wf + 1) wf (by omega)
  have hlenpres : (execLoopFuel (execute_step collab)
      (remainingBudget wf + 1) wf).1.steps.length = wf.steps.length := by
    have := congrArg List.length hids
    simpa [stepIds] using this
  have hlents : (stepTypes wf).length = wf.steps.length := by
    simp [stepTypes]
  rw [hc0, List.drop_zero] at hn
  simp only [execute_workflow]
  rcases k2 with hp | hf
  · obtain ⟨m1, m2, m3⟩ := k3 hp
    have hpost := execWorkflowPost_completed
      (execLoopFuel (execute_step collab) (remainingBudget wf + 1) wf)
      (by simp only [WorkflowExecution.is_completed]; simpa using m3)
      (by rw [hp]; decide)
    have h2 : (execWorkflowPost (execLoopFuel (execute_step collab)
        (remainingBudget wf + 1) wf)).2 =
        (execLoopFuel (execute_step collab) (remainingBudget wf + 1) wf).2 ++
          [TraceEvent.emitEvent "workflow_completed"
             (workflowCompletedPayload (execLoopFuel (execute_step collab)
               (remainingBudget wf + 1) wf).1)] := by
      rw [hpost]
    have h1s : (execWorkflowPost (execLoopFuel (execute_step collab)
        (remainingBudget wf + 1) wf)).1.status =
        OperationStatus.completed := by rw [hpost]
    refine ⟨?_, ?_⟩
    · intro _
      rw [h2]
      simp only [countChannelPublishes_append, countChannelPublishes_cons_emit,
        countChannelPublishes_nil, Nat.add_zero]
      rw [hn, List.take_of_length_le (by omega)]
      exact htn
    · intro hcon
      rw [h1s] at hcon
      cases hcon
  · have hpost := execWorkflowPost_failed
      (execLoopFuel (execute_step collab) (remainingBudget wf + 1) wf) hf
    rw [hpost]
    refine ⟨?_, ?_⟩
    · intro hcon
      rw [hf] at hcon
      cases hcon
    · intro _
      have hcur := k5 hf
      refine ⟨?_, ?_⟩
      · rw [hn]
        exact htake _ (by omega)
      · rcases k4 hf with ⟨sid, herr2, -⟩ | ⟨sid, e, herr2, -⟩
        · rw [herr2, herr]
          simp
        · rw [herr2, herr]
          simp

/-- **C5 (amended).** For every built-in workflow category, an execution
that completes publishes exactly one message to the `final_notifications`
channel (from its notification step), while an execution that fails
publishes none — the failure is recorded in the execution's `errors` list
(and surfaced through the `workflow_step_failed` event), not through a
final notification. -/
theorem c5_final_notifications_amended (collab : Collaborators)
    (request : SlackRequest)
    (workflow_type execution_id request_id : String)
    (ht : workflow_type ∈ (["github", "code", "pr"] : List String)) :
    ((execute_workflow (execute_step collab)
        (newWorkflow request workflow_type execution_id request_id)).1.status =
          OperationStatus.completed →
      countChannelPublishes "final_notifications"
        (execute_workflow (execute_step collab)
          (newWorkflow request workflow_type execution_id request_id)).2 = 1) ∧
    ((execute_workflow (execute_step collab)
        (newWorkflow request workflow_type execution_id request_id)).1.status =
          OperationStatus.failed →
      countChannelPublishes "final_notifications"
        (execute_workflow (execute_step collab)
          (newWorkflow request workflow_type execution_id request_id)).2 = 0 ∧
      (execute_workflow (execute_step collab)
        (newWorkflow request workflow_type execution_id
          request_id)).1.errors ≠ []) := by
  simp only [List.mem_cons, List.mem_singleton] at ht
  rcases ht with rfl | rfl | rfl | hF
  · refine final_notifs_of_single_notification collab _ rfl rfl rfl ?_ ?_
    · show (["nlp", "validation", "github", "notification"] :
        List String).count "notification" = 1
      decide
    · show ∀ k, k < (["nlp", "validation", "github", "notification"] :
        List String).length →
        ((["nlp", "validation", "github", "notification"] :
          List String).take k).count "notification" = 0
      decide
  · refine final_notifs_of_single_notification collab _ rfl rfl rfl ?_ ?_
    · show (["nlp", "code_generation", "github", "notification"] :
        List String).count "notification" = 1
      decide
    · show ∀ k, k < (["nlp", "code_generation", "github", "notification"] :
        List String).length →
        ((["nlp", "code_generation", "github", "notification"] :
          List String).take k).count "notification" = 0
      decide
  · refine final_notifs_of_single_notification collab _ rfl rfl rfl ?_ ?_
    · show (["nlp", "pr_analysis", "github", "notification"] :
        List String).count "notification" = 1
      decide
    · show ∀ k, k < (["nlp", "pr_analysis", "github", "notification"] :
        List String).length →
        ((["nlp", "pr_analysis", "github", "notification"] :
          List String).take k).count "notification" = 0
      decide
  · cases hF

/-- **C5 counterexample.** A github workflow whose NLP collaborator is
down reaches the terminal state failed but produces zero final
notification events (and the errors list is reported nowhere on the
notification channel), refuting "every terminal workflow state results in
exactly one notification event, and failed workflows report the errors
list". -/
theorem c5_counterexample :
    (execute_workflow (execute_step collabNlpDown)
      (newWorkflow reqA "github" "e1" "r1")).1.status =
        OperationStatus.failed ∧
    countChannelPublishes "final_notifications"
      (execute_workflow (execute_step collabNlpDown)
        (newWorkflow reqA "github" "e1" "r1")).2 = 0 ∧
    (execute_workflow (execute_step collabNlpDown)
      (newWorkflow reqA "github" "e1" "r1")).1.errors =
      ["Step nlp_processing failed: nlp unavailable"] :=
  ⟨by decide, by decide, by decide⟩

/-- Witness for the amended C5 on a successful github workflow. -/
theorem c5_witness :
    ("github" ∈ (["github", "code", "pr"] : List String)) ∧
    (((execute_workflow (execute_step collabOk)
        (newWorkflow reqA "github" "e1" "r1")).1.status =
          OperationStatus.completed →
      countChannelPublishes "final_notifications"
        (execute_workflow (execute_step collabOk)
          (newWorkflow reqA "github" "e1" "r1")).2 = 1) ∧
    ((execute_workflow (execute_step collabOk)
        (newWorkflow reqA "github" "e1" "r1")).1.status =
          OperationStatus.failed →
      countChannelPublishes "final_notifications"
        (execute_workflow (execute_step collabOk)
          (newWorkflow reqA "github" "e1" "r1")).2 = 0 ∧
      (execute_workflow (execute_step collabOk)
        (newWorkflow reqA "github" "e1" "r1")).1.errors ≠ [])) :=
  ⟨by decide,
   c5_final_notifications_amended collabOk reqA "github" "e1" "r1" (by decide)⟩

/-- **C6.** For every request and each built-in category, the built step
list is nonempty, starts with an `nlp` step with no dependencies, and
every later step depends exactly on its immediate predecessor's id (a
purely linear chain). -/
theorem c6_linear_dependency_chain (request : SlackRequest)
    (workflow_type : String)
    (ht : workflow_type ∈ (["github", "code", "pr"] : List String)) :
    create_workflow_steps request workflow_type ≠ [] ∧
    (∀ s0, (create_workflow_steps request workflow_type).head? = some s0 →
      s0.step_type = "nlp" ∧ s0.dependencies = []) ∧
    List.Chain' (fun a b => b.dependencies = [a.step_id])
      (create_workflow_steps request workflow_type) := by
  simp only [List.mem_cons, List.mem_singleton] at ht
  rcases ht with rfl | rfl | rfl | hF
  · refine ⟨by simp [create_workflow_steps], ?_, ?_⟩
    · intro s0 h0
      simp [create_workflow_steps] at h0
      rw [← h0]
      exact ⟨rfl, rfl⟩
    · simp [create_workflow_steps, List.chain'_cons]
  · refine ⟨by simp [create_workflow_steps], ?_, ?_⟩
    · intro s0 h0
      simp [create_workflow_steps] at h0
      rw [← h0]
      exact ⟨rfl, rfl⟩
    · simp [create_workflow_steps, List.chain'_cons]
  · refine ⟨by simp [create_workflow_steps], ?_, ?_⟩
    · intro s0 h0
      simp [create_workflow_steps] at h0
      rw [← h0]
      exact ⟨rfl, rfl⟩
    · simp [create_workflow_steps, List.chain'_cons]
  · cases hF

/-- Witness for C6 at a concrete request and the github category. -/
theorem c6_witness :
    ("github" ∈ (["github", "code", "pr"] : List String)) ∧
    (create_workflow_steps reqA "github" ≠ [] ∧
    (∀ s0, (create_workflow_steps reqA "github").head? = some s0 →
      s0.step_type = "nlp" ∧ s0.dependencies = []) ∧
    List.Chain' (fun a b => b.dependencies = [a.step_id])
      (create_workflow_steps reqA "github")) :=
  ⟨by decide, c6_linear_dependency_chain reqA "github" (by decide)⟩



@[simp] theorem updateChannel_self (st : QueueState) (c : String)
    (l : List QueueMessage) : updateChannel st c l c = l := by
  simp [updateChannel]

theorem brpop_concat (l : List QueueMessage) (m : QueueMessage) :
    brpop (l ++ [m]) = some (m, l) := by
  unfold brpop
  rw [List.getLast?_concat, List.dropLast_concat]

theorem pushSeq_channel (c : String) :
    ∀ (items : List (PyVal × Int × Nat)) (st : QueueState),
      (pushSeq st c items) c =
        (items.map (fun t => (⟨t.1, t.2.1, t.2.2⟩ : QueueMessage))).reverse ++
          st c := by
  intro items
  induction items with
  | nil => intro st; simp [pushSeq]
  | cons t rest ih =>
    intro st
    show (pushSeq (MessageQueue.publish st c t.1 t.2.1 t.2.2) c rest) c = _
    rw [ih]
    simp [MessageQueue.publish]

theorem consumeN_drains (c : String) :
    ∀ (l : List QueueMessage) (st : QueueState), st c = l →
      MessageQueue.consumeN st c l.length =
        (l.reverse).map QueueMessage.data := by
  intro l
  induction l using List.reverseRecOn with
  | nil => intro st hst; rfl
  | append_singleton l' m ih =>
    intro st hst
    rw [show (l' ++ [m]).length = l'.length + 1 by simp]
    show (match brpop (st c) with
      | Option.none => []
      | some (m1, rest) =>
        m1.data :: MessageQueue.consumeN (updateChannel st c rest) c l'.length) = _
    rw [hst, brpop_concat]
    show m.data :: MessageQueue.consumeN (updateChannel st c l') c l'.length = _
    rw [ih (updateChannel st c l') (by simp)]
    simp

/-- **C7.** Publishing any sequence of payloads (with any priorities and
clock readings) onto an empty channel and then consuming that channel
yields exactly the original payloads — the `data` field with the envelope
stripped — in first-pushed-first-popped order. -/
theorem c7_fifo_roundtrip (st : QueueState) (channel : String)
    (items : List (PyVal × Int × Nat)) (hempty : st channel = []) :
    MessageQueue.consumeN (pushSeq st channel items) channel items.length =
      items.map (fun t => t.1) := by
  have hch := pushSeq_channel channel items st
  rw [hempty, List.append_nil] at hch
  have hlen : items.length =
      ((items.map (fun t => (⟨t.1, t.2.1, t.2.2⟩ : QueueMessage))).reverse).length := by
    simp
  rw [hlen, consumeN_drains channel _ _ hch]
  simp

/-- Witness for C7: two pushed payloads come back in push order. -/
theorem c7_witness :
    (emptyQueue "jobs" = []) ∧
    MessageQueue.consumeN
      (pushSeq emptyQueue "jobs"
        [(PyVal.str "first", 0, 0), (PyVal.str "second", 5, 1)]) "jobs"
      ([(PyVal.str "first", 0, 0), (PyVal.str "second", 5, 1)] :
        List (PyVal × Int × Nat)).length =
      [PyVal.str "first", PyVal.str "second"] :=
  ⟨rfl,
   c7_fifo_roundtrip emptyQueue "jobs"
     [(PyVal.str "first", 0, 0), (PyVal.str "second", 5, 1)] rfl⟩



theorem lookupStr_appendHandler (l : List (String × List Handler))
    (event_type : String) (h : Handler) :
    lookupStr (appendHandler l event_type h) event_type =
      some ((lookupStr l event_type).getD [] ++ [h]) := by
  induction l with
  | nil => simp [appendHandler, lookupStr]
  | cons kv rest ih =>
    obtain ⟨k, hs⟩ := kv
    by_cases hk : k = event_type
    · simp [appendHandler, lookupStr, hk]
    · simp [appendHandler, lookupStr, hk, ih]

theorem runHandlers_length (hs : List Handler) (data : PyVal) :
    (runHandlers hs data).length = hs.length := by
  induction hs with
  | nil => rfl
  | cons h rest ih => simp [runHandlers, ih]

theorem runHandlers_getElem (data : PyVal) :
    ∀ (hs : List Handler) (i : Nat) (hi : i < hs.length),
      (runHandlers hs data)[i]? = some (handlerOutcome hs[i] data) := by
  intro hs
  induction hs with
  | nil => intro i hi; simp at hi
  | cons h rest ih =>
    intro i hi
    cases i with
    | zero =>
      show (handlerOutcome h data :: runHandlers rest data)[0]? = _
      rw [List.getElem?_cons_zero]
      simp
    | succ j =>
      show (handlerOutcome h data :: runHandlers rest data)[j + 1]? = _
      rw [List.getElem?_cons_succ, ih j (by simpa using hi)]
      congr 1

/-- **C8.** `register_handler` appends to the per-type handler list, and
`emit` produces one outcome per registered handler, in registration
order: the `i`-th outcome is exactly the `i`-th handler's caught result,
so a raising handler never prevents later handlers from running, and
`emit` itself always returns (it is a total function whose outcome list
covers every handler). -/
theorem c8_emit_invokes_all_handlers_in_order :
    (∀ (bus : EventBus) (event_type : String) (h : Handler),
      (bus.register_handler event_type h).getHandlers event_type =
        bus.getHandlers event_type ++ [h]) ∧
    (∀ (bus : EventBus) (st : QueueState) (event_type : String)
        (data : PyVal) (now : Nat),
      ((bus.emit st event_type data now).2).length =
        (bus.getHandlers event_type).length ∧
      ∀ i (hi : i < (bus.getHandlers event_type).length),
        ((bus.emit st event_type data now).2)[i]? =
          some (handlerOutcome (bus.getHandlers event_type)[i] data)) := by
  constructor
  · intro bus event_type h
    show (lookupStr (appendHandler bus.event_handlers event_type h)
      event_type).getD [] = _
    rw [lookupStr_appendHandler]
    rfl
  · intro bus st event_type data now
    exact ⟨runHandlers_length _ data,
      fun i hi => runHandlers_getElem data _ i hi⟩

/-- Witness for C8: with a raising handler registered before a
well-behaved one, `emit` reports the first handler's caught error and
still invokes the second handler. -/
theorem c8_witness :
    (0 < (busTwoHandlers.getHandlers "t").length ∧
     1 < (busTwoHandlers.getHandlers "t").length) ∧
    ((busTwoHandlers.emit emptyQueue "t" (PyVal.str "payload") 0).2)[0]? =
      some (handlerOutcome (busTwoHandlers.getHandlers "t")[0]
        (PyVal.str "payload")) ∧
    ((busTwoHandlers.emit emptyQueue "t" (PyVal.str "payload") 0).2)[1]? =
      some (handlerOutcome (busTwoHandlers.getHandlers "t")[1]
        (PyVal.str "payload")) ∧
    ((busTwoHandlers.emit emptyQueue "t" (PyVal.str "payload") 0).2) =
      [some "handler boom", Option.none] :=
  ⟨⟨Nat.zero_lt_succ _, Nat.one_lt_two⟩,
   (c8_emit_invokes_all_handlers_in_order.2 busTwoHandlers emptyQueue "t"
     (PyVal.str "payload") 0).2 0 (Nat.zero_lt_succ _),
   (c8_emit_invokes_all_handlers_in_order.2 busTwoHandlers emptyQueue "t"
     (PyVal.str "payload") 0).2 1 Nat.one_lt_two,
   rfl⟩

end SlackCore
